import Mathlib

/-!
Verification of the particle-quest core against its natural-language
specification.

The TypeScript sources are shallowly embedded:
* `src/lib/particles.ts` — `ParticleType`, `Particle`, `ParticleGrid` with
  `get` / `set` / `swap` / `isEmpty` / `isSolid` / `resetUpdated` /
  `updatePhysics` / `updateDirt` / `updateGrass`.
* `src/lib/entities.ts` — `Entity`, `Player`, `Bat`, `checkCollision`,
  `applyGravity`, `updatePlayerPhysics`, `updateBatAI`.
* `src/lib/level.ts` — `generateLevel`, `findSpawnPosition`.
* `src/components/Game.tsx` — the per-enemy roster scan shape.

JavaScript numbers are modelled as exact rationals (`ℚ`), `Math.floor` as
`Int.floor`.  `Math.random()` is modelled by explicit oracle parameters
(a random tape `ℕ → ℚ` consumed in call order, or a per-cell bias for the
sand automaton), and `Math.sin` by an uninterpreted function parameter
`ℚ → ℚ`; every theorem quantifies over these oracles or fixes them
concretely.  The grid's 2-D array is modelled as a total function
`Int → Int → Particle` together with `width`/`height`; all reads and
writes of the source go through the bounds-guarded `get`/`set`/`swap`,
which behave on the function exactly as the array operations do on the
array (out-of-range reads give `none`, out-of-range writes are no-ops).
-/

inductive ParticleType where
  | AIR
  | DIRT
  | GRASS
  | PLANT
  | PLAYER
  | SLIME
  | SWORD
  | BAT
  | STONE
  deriving DecidableEq, Repr

open ParticleType

structure Particle where
  type : ParticleType
  updated : Bool
  deriving DecidableEq, Repr

structure ParticleGrid where
  width : Nat
  height : Nat
  cells : Int → Int → Particle

/-- `initializeGrid`: every cell starts as non-updated Air. -/
def ParticleGrid.init (width height : Nat) : ParticleGrid :=
  ⟨width, height, fun _ _ => ⟨AIR, false⟩⟩

/-- The in-bounds test used by `get`, `set` and `swap`
(`x < 0 || x >= this.width || y < 0 || y >= this.height`, negated). -/
def ParticleGrid.inBounds (g : ParticleGrid) (x y : Int) : Prop :=
  0 ≤ x ∧ x < (g.width : Int) ∧ 0 ≤ y ∧ y < (g.height : Int)

instance (g : ParticleGrid) (x y : Int) : Decidable (g.inBounds x y) := by
  unfold ParticleGrid.inBounds; infer_instance

/-- `get(x, y)`: `null` (here `none`) out of range, else the cell. -/
def ParticleGrid.get (g : ParticleGrid) (x y : Int) : Option Particle :=
  if g.inBounds x y then some (g.cells x y) else none

/-- `set(x, y, particle)`: bounds-guarded write. -/
def ParticleGrid.set (g : ParticleGrid) (x y : Int) (particle : Particle) :
    ParticleGrid :=
  if g.inBounds x y then
    { g with cells := fun a b => if a = x ∧ b = y then particle else g.cells a b }
  else g

/-- `swap(x1, y1, x2, y2)`: exchanges two cells, a no-op if either side is
out of range. -/
def ParticleGrid.swap (g : ParticleGrid) (x1 y1 x2 y2 : Int) : ParticleGrid :=
  if g.inBounds x1 y1 ∧ g.inBounds x2 y2 then
    { g with cells := fun a b =>
        if a = x1 ∧ b = y1 then g.cells x2 y2
        else if a = x2 ∧ b = y2 then g.cells x1 y1
        else g.cells a b }
  else g

/-- `isEmpty(x, y)`: `particle ? particle.type === AIR : false`. -/
def ParticleGrid.isEmpty (g : ParticleGrid) (x y : Int) : Bool :=
  match g.get x y with
  | some particle => decide (particle.type = AIR)
  | none => false

/-- `isSolid(x, y)`: `if (!particle) return true; return particle.type !== AIR`. -/
def ParticleGrid.isSolid (g : ParticleGrid) (x y : Int) : Bool :=
  match g.get x y with
  | some particle => decide (particle.type ≠ AIR)
  | none => true

/-- `resetUpdated`: clears the updated flag of every in-range cell. -/
def ParticleGrid.resetUpdated (g : ParticleGrid) : ParticleGrid :=
  { g with cells := fun a b =>
      if g.inBounds a b then { g.cells a b with updated := false } else g.cells a b }

/-- The raw flag write `this.grid[x][y].updated = true` (no bounds guard in
the source: it is only reached at coordinates just verified in range). -/
def ParticleGrid.markUpdated (g : ParticleGrid) (x y : Int) : ParticleGrid :=
  { g with cells := fun a b =>
      if a = x ∧ b = y then { g.cells x y with updated := true } else g.cells a b }

/-- `below && below.type === AIR` for an optional cell. -/
def isAirCell : Option Particle → Bool
  | some particle => decide (particle.type = AIR)
  | none => false

/-- `updateDirt(x, y)`.  `left` is the value of
`Math.random() < 0.5 ? -1 : 1` drawn for this call; `right = -left`. -/
def ParticleGrid.updateDirt (g : ParticleGrid) (left : Int) (x y : Int) :
    ParticleGrid :=
  if isAirCell (g.get x (y + 1)) then
    (g.swap x y x (y + 1)).markUpdated x (y + 1)
  else
    let right := -left
    if isAirCell (g.get (x + left) (y + 1)) then
      (g.swap x y (x + left) (y + 1)).markUpdated (x + left) (y + 1)
    else if isAirCell (g.get (x + right) (y + 1)) then
      (g.swap x y (x + right) (y + 1)).markUpdated (x + right) (y + 1)
    else g

/-- `updateGrass(x, y)`: unsupported grass decays to dirt in place, then the
dirt swaps downward and the destination is marked updated. -/
def ParticleGrid.updateGrass (g : ParticleGrid) (x y : Int) : ParticleGrid :=
  if isAirCell (g.get x (y + 1)) then
    ((g.set x y ⟨DIRT, false⟩).swap x y x (y + 1)).markUpdated x (y + 1)
  else g

/-- One iteration of the `updatePhysics` scan body at cell `(x, y)`:
skip updated cells, dispatch on the material.  `bias x y` decides the
left/right order of the dirt rule's diagonal checks at this cell
(the source draws `Math.random() < 0.5` there). -/
def ParticleGrid.stepCell (bias : Int → Int → Bool) (g : ParticleGrid)
    (x y : Int) : ParticleGrid :=
  let particle := g.cells x y
  if particle.updated then g
  else if particle.type = DIRT then
    g.updateDirt (if bias x y then -1 else 1) x y
  else if particle.type = GRASS then g.updateGrass x y
  else g

/-- The scan order of `updatePhysics`: rows `height-2` down to `0`,
left to right within each row. -/
def scanOrder (width height : Nat) : List (Int × Int) :=
  ((List.range (height - 1)).reverse).flatMap fun y =>
    (List.range width).map fun (x : Nat) => ((x : Int), (y : Int))

/-- `updatePhysics()`: reset all updated flags, then run the scan. -/
def ParticleGrid.updatePhysics (g : ParticleGrid) (bias : Int → Int → Bool) :
    ParticleGrid :=
  (scanOrder g.width g.height).foldl
    (fun acc p => acc.stepCell bias p.1 p.2) g.resetUpdated

/-- `updatePhysics` iterated (`step()` called `n` times). -/
def stepTimes (bias : Int → Int → Bool) (g : ParticleGrid) : Nat → ParticleGrid
  | 0 => g
  | n + 1 => stepTimes bias (g.updatePhysics bias) n

/-- C10: `isSolid` is the pointwise negation of `isEmpty`, in and out of
range. -/
theorem isSolid_eq_not_isEmpty (g : ParticleGrid) (x y : Int) :
    g.isSolid x y = !(g.isEmpty x y) := by
  unfold ParticleGrid.isSolid ParticleGrid.isEmpty
  cases g.get x y with
  | none => rfl
  | some particle => by_cases h : particle.type = AIR <;> simp [h]

/-! ### Entities and shared kinematics (`entities.ts`) -/

structure Entity where
  x : ℚ
  y : ℚ
  vx : ℚ
  vy : ℚ
  width : Nat
  height : Nat
  onGround : Bool
  health : Int
  maxHealth : Int

structure Player extends Entity where
  attackCooldown : Nat
  attackFrame : Nat

structure Bat extends Entity where
  hoverOffset : ℚ
  hoverSpeed : ℚ
  diveCooldown : Nat
  isDiving : Bool

/-- `createPlayer(x, y)`. -/
def createPlayer (x y : ℚ) : Player :=
  { x := x, y := y, vx := 0, vy := 0, width := 3, height := 3,
    onGround := false, health := 100, maxHealth := 100,
    attackCooldown := 0, attackFrame := 0 }

/-- `createBat(x, y)`. -/
def createBat (x y : ℚ) : Bat :=
  { x := x, y := y, vx := 0, vy := 0, width := 2, height := 2,
    onGround := false, health := 20, maxHealth := 20,
    hoverOffset := 0, hoverSpeed := 1 / 20, diveCooldown := 0,
    isDiving := false }

/-- `checkCollision(entity, grid, dx, dy)`: floor the offset position, scan
the `width × height` bounding box; out-of-bounds cells collide, in-bounds
cells collide when their material is none of Air, Plant, Player, Slime,
Sword.  `List.any` returns at the first hit, like the source's early
`return true`. -/
def checkCollision (entity : Entity) (grid : ParticleGrid) (dx dy : ℚ) :
    Bool :=
  let newX := ⌊entity.x + dx⌋
  let newY := ⌊entity.y + dy⌋
  (List.range entity.width).any fun x =>
    (List.range entity.height).any fun y =>
      let checkX := newX + x
      let checkY := newY + y
      if checkX < 0 ∨ (grid.width : Int) ≤ checkX ∨ checkY < 0 ∨
          (grid.height : Int) ≤ checkY then
        true
      else
        match grid.get checkX checkY with
        | some particle =>
            decide (particle.type ≠ AIR ∧ particle.type ≠ PLANT ∧
              particle.type ≠ PLAYER ∧ particle.type ≠ SLIME ∧
              particle.type ≠ SWORD)
        | none => false

/-- `applyGravity(entity, gravity)`: `vy += gravity`, capped at 5. -/
def applyGravity (entity : Entity) (gravity : ℚ) : Entity :=
  let entity := { entity with vy := entity.vy + gravity }
  if entity.vy > 5 then { entity with vy := 5 } else entity

/-- The vertical sub-step loop of `updatePlayerPhysics`: up to `steps`
iterations; each tests collision at offset `stepY` before committing.
On the first colliding sub-step, downward motion grounds the player and
zeroes `vy`, upward motion only zeroes `vy`; the loop breaks. -/
def vertSubSteps (grid : ParticleGrid) (stepY : ℚ) :
    Nat → Player → Player
  | 0, player => player
  | steps + 1, player =>
    if checkCollision player.toEntity grid 0 stepY then
      if player.vy > 0 then { player with onGround := true, vy := 0 }
      else { player with vy := 0 }
    else
      vertSubSteps grid stepY steps
        { player with y := player.y + stepY, onGround := false }

/-- The horizontal sub-step loop of `updatePlayerPhysics`: unit steps
signed by `vx`, stopping and zeroing `vx` on first collision. -/
def horizSubSteps (grid : ParticleGrid) (stepX : ℚ) :
    Nat → Player → Player
  | 0, player => player
  | steps + 1, player =>
    if checkCollision player.toEntity grid stepX 0 then
      { player with vx := 0 }
    else
      horizSubSteps grid stepX steps { player with x := player.x + stepX }

/-- The tail of `updatePlayerPhysics`: friction `vx *= 0.8`, snap-to-zero
below `0.1`, and the two cooldown decrements. -/
def playerFrictionAndTimers (player : Player) : Player :=
  let player := { player with vx := player.vx * (8 / 10) }
  let player := if |player.vx| < 1 / 10 then { player with vx := 0 } else player
  let player :=
    if player.attackCooldown > 0 then
      { player with attackCooldown := player.attackCooldown - 1 }
    else player
  if player.attackFrame > 0 then
    { player with attackFrame := player.attackFrame - 1 }
  else player

/-- `updatePlayerPhysics(player, grid, dt)`: gravity, vertical sub-steps of
`vy / ceil(|vy|)`, horizontal unit sub-steps signed by `vx`, then friction
and timers.  (`dt` is unused in the source as well.) -/
def updatePlayerPhysics (player : Player) (grid : ParticleGrid) (_dt : ℚ) :
    Player :=
  let player := { player with toEntity := applyGravity player.toEntity (1 / 2) }
  let steps := (⌈|player.vy|⌉).toNat
  let stepY := player.vy / (steps : ℚ)
  let player := vertSubSteps grid stepY steps player
  let stepsX := (⌈|player.vx|⌉).toNat
  let stepX : ℚ := if player.vx > 0 then 1 else -1
  let player := horizSubSteps grid stepX stepsX player
  playerFrictionAndTimers player

/-! ### C1: the sub-stepped integration never ends inside a solid cell -/

/-- `checkCollision` only depends on the floored test position and the
footprint. -/
theorem checkCollision_congr (e1 e2 : Entity) (grid : ParticleGrid)
    (dx1 dy1 dx2 dy2 : ℚ) (hx : ⌊e1.x + dx1⌋ = ⌊e2.x + dx2⌋)
    (hy : ⌊e1.y + dy1⌋ = ⌊e2.y + dy2⌋) (hw : e1.width = e2.width)
    (hh : e1.height = e2.height) :
    checkCollision e1 grid dx1 dy1 = checkCollision e2 grid dx2 dy2 := by
  unfold checkCollision
  rw [hx, hy, hw, hh]

theorem playerFrictionAndTimers_x (player : Player) :
    (playerFrictionAndTimers player).toEntity.x = player.toEntity.x := by
  unfold playerFrictionAndTimers
  dsimp only
  split <;> split <;> split <;> rfl

theorem playerFrictionAndTimers_y (player : Player) :
    (playerFrictionAndTimers player).toEntity.y = player.toEntity.y := by
  unfold playerFrictionAndTimers
  dsimp only
  split <;> split <;> split <;> rfl

theorem playerFrictionAndTimers_width (player : Player) :
    (playerFrictionAndTimers player).toEntity.width
      = player.toEntity.width := by
  unfold playerFrictionAndTimers
  dsimp only
  split <;> split <;> split <;> rfl

theorem playerFrictionAndTimers_height (player : Player) :
    (playerFrictionAndTimers player).toEntity.height
      = player.toEntity.height := by
  unfold playerFrictionAndTimers
  dsimp only
  split <;> split <;> split <;> rfl

/-- Position safety through the vertical sub-step loop: every committed
sub-step was collision-tested first. -/
theorem vertSubSteps_safe (grid : ParticleGrid) (stepY : ℚ) :
    ∀ (steps : Nat) (player : Player),
      checkCollision player.toEntity grid 0 0 = false →
      checkCollision (vertSubSteps grid stepY steps player).toEntity grid 0 0
        = false := by
  intro steps
  induction steps with
  | zero => intro player h; exact h
  | succ n ih =>
    intro player h
    unfold vertSubSteps
    by_cases hc : checkCollision player.toEntity grid 0 stepY = true
    · simp only [hc, if_true]
      by_cases hv : player.vy > 0 <;> simp only [hv, if_true, if_false] <;>
        · refine Eq.trans ?_ h
          exact checkCollision_congr _ _ grid 0 0 0 0 rfl rfl rfl rfl
    · simp only [Bool.not_eq_true] at hc
      simp only [hc, Bool.false_eq_true, if_false]
      apply ih
      refine Eq.trans ?_ hc
      exact checkCollision_congr _ _ grid 0 0 0 stepY rfl (by rw [add_zero])
        rfl rfl

/-- Position safety through the horizontal sub-step loop. -/
theorem horizSubSteps_safe (grid : ParticleGrid) (stepX : ℚ) :
    ∀ (steps : Nat) (player : Player),
      checkCollision player.toEntity grid 0 0 = false →
      checkCollision (horizSubSteps grid stepX steps player).toEntity grid 0 0
        = false := by
  intro steps
  induction steps with
  | zero => intro player h; exact h
  | succ n ih =>
    intro player h
    unfold horizSubSteps
    by_cases hc : checkCollision player.toEntity grid stepX 0 = true
    · simp only [hc, if_true]
      refine Eq.trans ?_ h
      exact checkCollision_congr _ _ grid 0 0 0 0 rfl rfl rfl rfl
    · simp only [Bool.not_eq_true] at hc
      simp only [hc, Bool.false_eq_true, if_false]
      apply ih
      refine Eq.trans ?_ hc
      exact checkCollision_congr _ _ grid 0 0 stepX 0 (by rw [add_zero]) rfl
        rfl rfl

/-- C1: an entity whose floored bounding box starts a tick free of solid
cells (and of the out-of-bounds region) is still free of them after the
full sub-stepped kinematics tick, for every starting velocity — in
particular for every velocity up to the gravity cap. -/
theorem updatePlayerPhysics_no_tunnel (grid : ParticleGrid) (player : Player)
    (dt : ℚ) (h : checkCollision player.toEntity grid 0 0 = false) :
    checkCollision (updatePlayerPhysics player grid dt).toEntity grid 0 0
      = false := by
  have key : ∀ q : Player,
      checkCollision q.toEntity grid 0 0 = false →
      checkCollision (playerFrictionAndTimers q).toEntity grid 0 0
        = false := by
    intro q hq
    refine Eq.trans ?_ hq
    exact checkCollision_congr _ _ grid 0 0 0 0
      (by rw [playerFrictionAndTimers_x])
      (by rw [playerFrictionAndTimers_y])
      (playerFrictionAndTimers_width _) (playerFrictionAndTimers_height _)
  unfold updatePlayerPhysics
  dsimp only
  apply key
  apply horizSubSteps_safe
  apply vertSubSteps_safe
  refine Eq.trans ?_ h
  refine checkCollision_congr _ _ grid 0 0 0 0 ?_ ?_ ?_ ?_ <;>
    · show _ = _
      unfold applyGravity
      dsimp only
      split <;> rfl

/-- A 3×3 player at (5,5) in an all-Air 20×20 grid starts collision-free. -/
theorem checkCollision_createPlayer_free :
    checkCollision (createPlayer 5 5).toEntity (ParticleGrid.init 20 20) 0 0
      = false := by
  have h5 : ⌊(5 : ℚ) + 0⌋ = (5 : ℤ) := by norm_num
  unfold checkCollision
  dsimp only [createPlayer, ParticleGrid.init]
  rw [h5]
  simp only [List.any_eq_false, List.mem_range, Bool.not_eq_true]
  intro x hx y hy
  rw [if_neg (by push_cast; omega)]
  have hget : (ParticleGrid.mk 20 20 (fun _ _ => ⟨AIR, false⟩)).get
      (5 + (x : ℤ)) (5 + (y : ℤ)) = some ⟨AIR, false⟩ := by
    unfold ParticleGrid.get ParticleGrid.inBounds
    have hin : (0 : ℤ) ≤ 5 + (x : ℤ) ∧ 5 + (x : ℤ) < ((20 : ℕ) : ℤ) ∧
        (0 : ℤ) ≤ 5 + (y : ℤ) ∧ 5 + (y : ℤ) < ((20 : ℕ) : ℤ) := by
      push_cast
      omega
    rw [if_pos hin]
  rw [hget]
  decide

/-- Concrete witness for C1: the no-tunnel theorem applied to a 3×3 player
at (5,5) in an all-Air 20×20 grid. -/
theorem updatePlayerPhysics_no_tunnel_witness :
    checkCollision (createPlayer 5 5).toEntity (ParticleGrid.init 20 20) 0 0
        = false ∧
      checkCollision
        (updatePlayerPhysics (createPlayer 5 5) (ParticleGrid.init 20 20)
            1).toEntity
        (ParticleGrid.init 20 20) 0 0 = false :=
  ⟨checkCollision_createPlayer_free,
    updatePlayerPhysics_no_tunnel (ParticleGrid.init 20 20) (createPlayer 5 5)
      1 checkCollision_createPlayer_free⟩

/-! ### C6: characterisation of `checkCollision` -/

theorem ParticleGrid.inBounds_of_get_eq_some {g : ParticleGrid} {x y : Int}
    {particle : Particle} (h : g.get x y = some particle) :
    g.inBounds x y := by
  unfold ParticleGrid.get at h
  by_cases hb : g.inBounds x y
  · exact hb
  · rw [if_neg hb] at h
    cases h

theorem ParticleGrid.get_eq_some_of_inBounds (g : ParticleGrid) {x y : Int}
    (h : g.inBounds x y) : g.get x y = some (g.cells x y) := by
  unfold ParticleGrid.get
  rw [if_pos h]

/-- The cell-solidity predicate stated by the specification for the shared
collision test, with the corrected tag list: a probed coordinate counts as
solid iff it lies outside the grid, or its cell holds a material that is
none of Air, Plant, Player, Slime, Sword.  (`BAT` is *not* in the passable
list: see `checkCollision_claimC6_counterexample`.) -/
def solidAtClaim (g : ParticleGrid) (cx cy : Int) : Prop :=
  (cx < 0 ∨ (g.width : Int) ≤ cx ∨ cy < 0 ∨ (g.height : Int) ≤ cy) ∨
    ∃ particle, g.get cx cy = some particle ∧ particle.type ≠ AIR ∧
      particle.type ≠ PLANT ∧ particle.type ≠ PLAYER ∧
      particle.type ≠ SLIME ∧ particle.type ≠ SWORD

/-- C6 (amended): `checkCollision` returns `true` iff some cell of the
`W×H` box anchored at the floored offset position is out of bounds or
holds a material outside {Air, Plant, Player, Slime, Sword} — `BAT` cells
count as solid. -/
theorem checkCollision_iff_solidAtClaim (entity : Entity)
    (grid : ParticleGrid) (dx dy : ℚ) :
    checkCollision entity grid dx dy = true ↔
      ∃ i j : Nat, i < entity.width ∧ j < entity.height ∧
        solidAtClaim grid (⌊entity.x + dx⌋ + i) (⌊entity.y + dy⌋ + j) := by
  unfold checkCollision
  simp only [List.any_eq_true, List.mem_range]
  constructor
  · rintro ⟨i, hi, j, hj, hbody⟩
    refine ⟨i, j, hi, hj, ?_⟩
    by_cases hoob : ⌊entity.x + dx⌋ + (i : Int) < 0 ∨
        (grid.width : Int) ≤ ⌊entity.x + dx⌋ + (i : Int) ∨
        ⌊entity.y + dy⌋ + (j : Int) < 0 ∨
        (grid.height : Int) ≤ ⌊entity.y + dy⌋ + (j : Int)
    · exact Or.inl hoob
    · rw [if_neg hoob] at hbody
      refine Or.inr ?_
      cases hg : grid.get (⌊entity.x + dx⌋ + (i : Int))
          (⌊entity.y + dy⌋ + (j : Int)) with
      | none => rw [hg] at hbody; cases hbody
      | some particle =>
        rw [hg] at hbody
        exact ⟨particle, rfl, of_decide_eq_true hbody⟩
  · rintro ⟨i, j, hi, hj, hsolid⟩
    refine ⟨i, hi, j, hj, ?_⟩
    rcases hsolid with hoob | ⟨particle, hg, hconj⟩
    · rw [if_pos hoob]
    · have hb := ParticleGrid.inBounds_of_get_eq_some hg
      rw [if_neg ?_]
      · rw [hg]
        exact decide_eq_true hconj
      · unfold ParticleGrid.inBounds at hb
        omega

/-- Modelled from the claim's words, for refutation only: the collision
test the claim describes, in which `BAT` marker cells are also passable. -/
def checkCollisionBatPassable (entity : Entity) (grid : ParticleGrid)
    (dx dy : ℚ) : Bool :=
  let newX := ⌊entity.x + dx⌋
  let newY := ⌊entity.y + dy⌋
  (List.range entity.width).any fun x =>
    (List.range entity.height).any fun y =>
      let checkX := newX + x
      let checkY := newY + y
      if checkX < 0 ∨ (grid.width : Int) ≤ checkX ∨ checkY < 0 ∨
          (grid.height : Int) ≤ checkY then
        true
      else
        match grid.get checkX checkY with
        | some particle =>
            decide (particle.type ≠ AIR ∧ particle.type ≠ PLANT ∧
              particle.type ≠ PLAYER ∧ particle.type ≠ SLIME ∧
              particle.type ≠ SWORD ∧ particle.type ≠ BAT)
        | none => false

/-- A 1×1 grid holding a single `BAT` marker cell. -/
def batCellGrid : ParticleGrid := ParticleGrid.mk 1 1 (fun _ _ => ⟨BAT, false⟩)

/-- A 1×1 test entity at the origin. -/
def unitEntity : Entity :=
  { x := 0, y := 0, vx := 0, vy := 0, width := 1, height := 1,
    onGround := false, health := 1, maxHealth := 1 }

/-- C6 counterexample: on a `BAT` marker cell the code's collision test
fires, but the claim's collision test (with Bat passable) does not, so the
claimed `iff` is false there. -/
theorem checkCollision_claimC6_counterexample :
    checkCollision unitEntity batCellGrid 0 0 = true ∧
      checkCollisionBatPassable unitEntity batCellGrid 0 0 = false := by
  have h0 : ⌊(0 : ℚ) + 0⌋ = (0 : ℤ) := by norm_num
  have hget : batCellGrid.get (0 + ((0 : ℕ) : ℤ)) (0 + ((0 : ℕ) : ℤ))
      = some ⟨BAT, false⟩ := by
    apply ParticleGrid.get_eq_some_of_inBounds
    simp [batCellGrid, ParticleGrid.inBounds]
  constructor
  · unfold checkCollision
    dsimp only [unitEntity]
    rw [h0]
    rw [show List.range 1 = [0] from rfl]
    simp only [List.any_cons, List.any_nil, Bool.or_false]
    rw [if_neg (by dsimp only [batCellGrid]; omega)]
    rw [hget]
    decide
  · unfold checkCollisionBatPassable
    dsimp only [unitEntity]
    rw [h0]
    rw [show List.range 1 = [0] from rfl]
    simp only [List.any_cons, List.any_nil, Bool.or_false]
    rw [if_neg (by dsimp only [batCellGrid]; omega)]
    rw [hget]
    decide

/-! ### Spawn locator (`level.ts`, `findSpawnPosition`) -/

/-- `cell && cell.type !== AIR && cell.type !== PLANT`: the impassability
test used for both the floor probe (row `y+1`) and the space probe
(row `y`) of `findSpawnPosition`; out-of-range cells fail it. -/
def spawnSolid (g : ParticleGrid) (a b : Int) : Bool :=
  match g.get a b with
  | some particle => decide (particle.type ≠ AIR ∧ particle.type ≠ PLANT)
  | none => false

/-- The inner `checkX` loop of `findSpawnPosition`: accumulates `hasFloor`
from row `y+1`, breaks with failure as soon as a column of row `y` is
impassable, and otherwise returns the accumulated `hasFloor` (with
`hasSpace` still true). -/
def spawnColsScan (g : ParticleGrid) (x y : Int) :
    List Nat → Bool → Bool
  | [], hasFloor => hasFloor
  | checkX :: rest, hasFloor =>
    let hasFloor := hasFloor || spawnSolid g (x + checkX) (y + 1)
    if spawnSolid g (x + checkX) y then false
    else spawnColsScan g x y rest hasFloor

/-- `hasFloor && hasSpace` for one candidate `(x, y)`: all `width` columns
of row `y` passable and some column of row `y+1` impassable. -/
def spotValid (g : ParticleGrid) (width : Nat) (x y : Int) : Bool :=
  spawnColsScan g x y (List.range width) false

/-- The `y` scan of one probe: `y` from `0` while `y < height - 10`,
returning the first valid `y`. -/
def scanYGo (g : ParticleGrid) (width : Nat) (x : Int) :
    Nat → Nat → Option Nat
  | 0, _ => none
  | fuel + 1, y =>
    if spotValid g width x (y : Int) then some y
    else scanYGo g width x fuel (y + 1)

/-- The attempt loop of `findSpawnPosition` (`fuel` attempts remaining,
`attempt` the current probe index); exhausting the budget returns the
fixed fallback `(⌊width/2⌋ - ⌊W/2⌋, 10)`. -/
def findSpawnGo (g : ParticleGrid) (width : Nat) (probes : Nat → Nat) :
    Nat → Nat → Option (Int × Int)
  | 0, _ => some (((g.width / 2 : Nat) : Int) - ((width / 2 : Nat) : Int), 10)
  | fuel + 1, attempt =>
    let x := probes attempt
    match scanYGo g width (x : Int) (g.height - 10) 0 with
    | some y => some ((x : Int), (y : Int))
    | none => findSpawnGo g width probes fuel (attempt + 1)

/-- `findSpawnPosition(grid, width)`: up to 100 probes whose sampled `x`
values are supplied by the oracle `probes` (the source draws
`Math.floor(Math.random() * (grid.width - width))` for each attempt). -/
def findSpawnPosition (g : ParticleGrid) (width : Nat)
    (probes : Nat → Nat) : Option (Int × Int) :=
  findSpawnGo g width probes 100 0

/-! ### C9: `findSpawnPosition` never returns null -/

theorem findSpawnGo_isSome (g : ParticleGrid) (width : Nat)
    (probes : Nat → Nat) :
    ∀ fuel attempt, (findSpawnGo g width probes fuel attempt).isSome
      = true := by
  intro fuel
  induction fuel with
  | zero => intro attempt; rfl
  | succ n ih =>
    intro attempt
    unfold findSpawnGo
    dsimp only
    cases h : scanYGo g width ((probes attempt : Nat) : Int) (g.height - 10) 0 with
    | some y => rfl
    | none => exact ih (attempt + 1)

/-- C9: for every grid, footprint width and probe oracle,
`findSpawnPosition` returns an actual coordinate — the `null` admitted by
its declared return type is never produced. -/
theorem findSpawnPosition_ne_none (g : ParticleGrid) (width : Nat)
    (probes : Nat → Nat) : findSpawnPosition g width probes ≠ none := by
  have h := findSpawnGo_isSome g width probes 100 0
  unfold findSpawnPosition
  intro hnone
  rw [hnone] at h
  cases h

/-! ### C5: `findSpawnPosition` probe/fallback behaviour -/

theorem spawnColsScan_eq_true_iff (g : ParticleGrid) (x y : Int) :
    ∀ (l : List Nat) (hasFloor : Bool),
      spawnColsScan g x y l hasFloor = true ↔
        (∀ c ∈ l, spawnSolid g (x + c) y = false) ∧
          (hasFloor = true ∨ ∃ c ∈ l, spawnSolid g (x + c) (y + 1) = true) := by
  intro l
  induction l with
  | nil =>
    intro hasFloor
    simp [spawnColsScan]
  | cons c rest ih =>
    intro hasFloor
    unfold spawnColsScan
    dsimp only
    by_cases hb : spawnSolid g (x + c) y = true
    · rw [if_pos hb]
      simp only [List.mem_cons]
      constructor
      · intro h; cases h
      · rintro ⟨hall, -⟩
        have := hall c (Or.inl rfl)
        rw [hb] at this
        cases this
    · rw [Bool.not_eq_true] at hb
      rw [if_neg (by rw [hb]; exact Bool.false_ne_true)]
      rw [ih]
      simp only [List.mem_cons, Bool.or_eq_true]
      constructor
      · rintro ⟨hrest, hor⟩
        refine ⟨?_, ?_⟩
        · rintro c' (rfl | hc')
          · exact hb
          · exact hrest c' hc'
        · rcases hor with (hf | hfc) | ⟨c', hc', hfl⟩
          · exact Or.inl hf
          · exact Or.inr ⟨c, Or.inl rfl, hfc⟩
          · exact Or.inr ⟨c', Or.inr hc', hfl⟩
      · rintro ⟨hall, hor⟩
        refine ⟨fun c' hc' => hall c' (Or.inr hc'), ?_⟩
        rcases hor with hf | ⟨c', (rfl | hc'), hfl⟩
        · exact Or.inl (Or.inl hf)
        · exact Or.inl (Or.inr hfl)
        · exact Or.inr ⟨c', hc', hfl⟩

theorem spotValid_iff (g : ParticleGrid) (width : Nat) (x y : Int) :
    spotValid g width x y = true ↔
      (∀ c, c < width → spawnSolid g (x + c) y = false) ∧
        ∃ c, c < width ∧ spawnSolid g (x + c) (y + 1) = true := by
  unfold spotValid
  rw [spawnColsScan_eq_true_iff]
  simp [List.mem_range]

theorem scanYGo_eq_none (g : ParticleGrid) (width : Nat) (x : Int) :
    ∀ (fuel y0 : Nat),
      (∀ y', y0 ≤ y' → y' < y0 + fuel →
        spotValid g width x (y' : Int) = false) →
      scanYGo g width x fuel y0 = none := by
  intro fuel
  induction fuel with
  | zero => intro y0 h; rfl
  | succ n ih =>
    intro y0 h
    unfold scanYGo
    rw [if_neg]
    · exact ih (y0 + 1) (fun y' h1 h2 => h y' (by omega) (by omega))
    · rw [h y0 le_rfl (by omega)]
      exact Bool.false_ne_true

theorem scanYGo_eq_some (g : ParticleGrid) (width : Nat) (x : Int) :
    ∀ (fuel y0 y : Nat), y0 ≤ y → y < y0 + fuel →
      spotValid g width x (y : Int) = true →
      (∀ y', y0 ≤ y' → y' < y → spotValid g width x (y' : Int) = false) →
      scanYGo g width x fuel y0 = some y := by
  intro fuel
  induction fuel with
  | zero => intro y0 y h1 h2; omega
  | succ n ih =>
    intro y0 y h1 h2 hv hmin
    unfold scanYGo
    rcases Nat.eq_or_lt_of_le h1 with rfl | hlt
    · rw [if_pos hv]
    · rw [if_neg]
      · exact ih (y0 + 1) y (by omega) (by omega) hv
          (fun y' ha hb => hmin y' (by omega) hb)
      · rw [hmin y0 le_rfl hlt]
        exact Bool.false_ne_true

theorem findSpawnGo_success (g : ParticleGrid) (width : Nat)
    (probes : Nat → Nat) :
    ∀ (fuel a0 k yk : Nat), a0 ≤ k → k < a0 + fuel →
      (∀ j, a0 ≤ j → j < k →
        scanYGo g width ((probes j : Nat) : Int) (g.height - 10) 0 = none) →
      scanYGo g width ((probes k : Nat) : Int) (g.height - 10) 0 = some yk →
      findSpawnGo g width probes fuel a0
        = some (((probes k : Nat) : Int), (yk : Int)) := by
  intro fuel
  induction fuel with
  | zero => intro a0 k yk h1 h2; omega
  | succ n ih =>
    intro a0 k yk h1 h2 hnone hk
    unfold findSpawnGo
    dsimp only
    rcases Nat.eq_or_lt_of_le h1 with rfl | hlt
    · rw [hk]
    · rw [hnone a0 le_rfl hlt]
      exact ih (a0 + 1) k yk (by omega) (by omega)
        (fun j ha hb => hnone j (by omega) hb) hk

theorem findSpawnGo_fallback (g : ParticleGrid) (width : Nat)
    (probes : Nat → Nat) :
    ∀ (fuel a0 : Nat),
      (∀ j, a0 ≤ j → j < a0 + fuel →
        scanYGo g width ((probes j : Nat) : Int) (g.height - 10) 0 = none) →
      findSpawnGo g width probes fuel a0
        = some (((g.width / 2 : Nat) : Int) - ((width / 2 : Nat) : Int), 10) := by
  intro fuel
  induction fuel with
  | zero => intro a0 h; rfl
  | succ n ih =>
    intro a0 h
    unfold findSpawnGo
    dsimp only
    rw [h a0 le_rfl (by omega)]
    exact ih (a0 + 1) (fun j ha hb => h j (by omega) (by omega))

/-- C5: (i) if earlier probes admit no valid `y`, probe `k < 100` has a
valid `y`, and `yk` is its least valid row, then `findSpawnPosition`
returns exactly `(probes k, yk)`; (ii) if all 100 probes fail it returns
exactly the fallback `(⌊gridWidth/2⌋ - ⌊W/2⌋, 10)`; (iii) a candidate is
valid iff all `W` columns of its row are passable (Air/Plant) and some
column directly beneath is impassable. -/
theorem findSpawnPosition_spec (g : ParticleGrid) (width : Nat)
    (probes : Nat → Nat) :
    (∀ k yk, k < 100 → yk < g.height - 10 →
      (∀ j, j < k → ∀ y', y' < g.height - 10 →
        spotValid g width ((probes j : Nat) : Int) (y' : Int) = false) →
      spotValid g width ((probes k : Nat) : Int) (yk : Int) = true →
      (∀ y', y' < yk →
        spotValid g width ((probes k : Nat) : Int) (y' : Int) = false) →
      findSpawnPosition g width probes
        = some (((probes k : Nat) : Int), (yk : Int))) ∧
    ((∀ k, k < 100 → ∀ y', y' < g.height - 10 →
        spotValid g width ((probes k : Nat) : Int) (y' : Int) = false) →
      findSpawnPosition g width probes
        = some (((g.width / 2 : Nat) : Int) - ((width / 2 : Nat) : Int),
            10)) ∧
    (∀ x y : Int, spotValid g width x y = true ↔
      (∀ c, c < width → spawnSolid g (x + c) y = false) ∧
        ∃ c, c < width ∧ spawnSolid g (x + c) (y + 1) = true) := by
  refine ⟨?_, ?_, fun x y => spotValid_iff g width x y⟩
  · intro k yk hk hyk hearlier hvalid hleast
    unfold findSpawnPosition
    exact findSpawnGo_success g width probes 100 0 k yk (Nat.zero_le k)
      (by omega)
      (fun j _ hj => scanYGo_eq_none g width _ _ 0
        (fun y' _ hy' => hearlier j hj y' (by omega)))
      (scanYGo_eq_some g width _ _ 0 yk (Nat.zero_le yk) (by omega) hvalid
        (fun y' _ hy' => hleast y' hy'))
  · intro hfail
    unfold findSpawnPosition
    exact findSpawnGo_fallback g width probes 100 0
      (fun j _ hj => scanYGo_eq_none g width _ _ 0
        (fun y' _ hy' => hfail j hj y' (by omega)))

/-- A 12×12 grid whose row `y = 1` is Dirt and all else Air. -/
def spawnDemoGrid : ParticleGrid :=
  ParticleGrid.mk 12 12 (fun _ b => if b = 1 then ⟨DIRT, false⟩ else ⟨AIR, false⟩)

/-- A probe oracle that always samples `x = 0`. -/
def zeroProbes : Nat → Nat := fun _ => 0

/-- Concrete witness for C5: the first probe at `x = 0` finds `(0, 0)`
(row 0 passable, floor at row 1). -/
theorem findSpawnPosition_spec_witness :
    spotValid spawnDemoGrid 2 ((zeroProbes 0 : Nat) : Int) ((0 : Nat) : Int)
        = true ∧
      findSpawnPosition spawnDemoGrid 2 zeroProbes
        = some (((zeroProbes 0 : Nat) : Int), ((0 : Nat) : Int)) :=
  ⟨by decide,
    (findSpawnPosition_spec spawnDemoGrid 2 zeroProbes).1 0 0 (by decide)
      (by decide) (fun j hj => absurd hj (Nat.not_lt_zero j)) (by decide)
      (fun y' hy' => absurd hy' (Nat.not_lt_zero y'))⟩

/-! ### C4: the per-enemy roster scan (`Game.tsx`) -/

/-- The roster scan shape of `Game.tsx`'s `update`: a JavaScript
`Array.prototype.forEach` over the enemy roster whose callback advances
the enemy (`f`, standing for the AI/combat update applied to the element)
and then removes it in place with `splice(index, 1)` when it dies.
`forEach` visits the indices `0 … length-1` of the *original* roster and
skips any index that no longer exists; elements are re-read at each
index, so after a `splice` the element that shifted into the removed slot
is passed over. -/
def forEachSplice {α : Type} (f : α → α) (dies : α → Bool)
    (roster : List α) : List α :=
  (List.range roster.length).foldl
    (fun current index =>
      match current[index]? with
      | none => current
      | some e =>
        let e2 := f e
        if dies e2 then current.eraseIdx index
        else current.set index e2)
    roster

/-- The two-phase mark-then-sweep update the specification prescribes:
advance every enemy, then remove the dead. -/
def markSweep {α : Type} (f : α → α) (dies : α → Bool)
    (roster : List α) : List α :=
  (roster.map f).filter (fun e => !dies e)

/-- C4 evaluation at the failing input: two enemies (advance-counters 10
and 20, `f` increments, the first dies after its update).  The in-place
scan deletes the first and then *skips* the survivor, leaving its state
un-advanced (`20`); the prescribed two-phase update advances it (`21`).
Every enemy alive at scan start is therefore *not* advanced exactly once
by the code. -/
theorem forEachSplice_skips_shifted :
    forEachSplice (fun n => n + 1) (fun n => decide (n = 11)) [10, 20]
        = [20] ∧
      markSweep (fun n => n + 1) (fun n => decide (n = 11)) [10, 20]
        = [21] := by
  constructor <;> rfl

/-! ### C3: bat dive transitions (`updateBatAI`) -/

/-- The ground probe of the dive branch:
`checkY = Math.floor(bat.y + bat.height + 1)`; the probe reports solid iff
`checkY < grid.height` and the cell at `(⌊bat.x⌋, checkY)` exists and is
not Air. -/
def batProbeSolid (grid : ParticleGrid) (bat : Bat) : Bool :=
  let checkY := ⌊bat.y + (bat.height : ℚ) + 1⌋
  if checkY < (grid.height : Int) then
    match grid.get ⌊bat.x⌋ checkY with
    | some below => decide (below.type ≠ AIR)
    | none => false
  else false

/-- The cooldown tick at the top of `updateBatAI`:
`if (bat.diveCooldown > 0) bat.diveCooldown--`. -/
def batCooldownTick (bat : Bat) : Bat :=
  if bat.diveCooldown > 0 then
    { bat with diveCooldown := bat.diveCooldown - 1 }
  else bat

/-- The dive decision of `updateBatAI`: a non-diving bat with zero
cooldown within distance 40 of the player starts a dive and the cooldown
is set to 120.  The trigger `Math.sqrt(dx²+dy²) < 40` is written as the
equivalent `dx²+dy² < 1600` (for a nonnegative radicand the two are the
same condition). -/
def batTryStartDive (distSq : ℚ) (bat : Bat) : Bat :=
  if bat.isDiving = false ∧ bat.diveCooldown = 0 ∧ distSq < 1600 then
    { bat with isDiving := true, diveCooldown := 120 }
  else bat

/-- The diving / hovering branch of `updateBatAI`: diving locks both
velocity components toward the player and drops back to hovering (with
`vy = -4`) when the ground probe reports solid; hovering eases `vy`
toward the sinusoidal bob target and tracks the player horizontally. -/
def batDiveOrHover (sinq : ℚ → ℚ) (distToPlayerX distToPlayerY : ℚ)
    (grid : ParticleGrid) (bat : Bat) : Bat :=
  if bat.isDiving then
    let bat : Bat :=
      { bat with vx := if distToPlayerX > 0 then 3 else -3,
                 vy := if distToPlayerY > 0 then 3 else -3 }
    if batProbeSolid grid bat then { bat with isDiving := false, vy := -4 }
    else bat
  else
    let targetY := 20 + sinq bat.hoverOffset * 5
    { bat with vy := (targetY - bat.y) * (1 / 20),
               vx := if distToPlayerX > 0 then 3 / 2 else -(3 / 2) }

/-- The tail of `updateBatAI`: apply the velocity to the position, clamp
to the horizontal grid range and `y ≥ 0`, damp both velocity components
by 0.95. -/
def batMoveClampDamp (grid : ParticleGrid) (bat : Bat) : Bat :=
  let bat : Bat := { bat with x := bat.x + bat.vx, y := bat.y + bat.vy }
  let bat : Bat := if bat.x < 0 then { bat with x := 0 } else bat
  let bat : Bat :=
    if bat.x > (grid.width : ℚ) - (bat.width : ℚ) then
      { bat with x := (grid.width : ℚ) - (bat.width : ℚ) }
    else bat
  let bat : Bat := if bat.y < 0 then { bat with y := 0 } else bat
  { bat with vx := bat.vx * (19 / 20), vy := bat.vy * (19 / 20) }

/-- `updateBatAI(bat, player, grid)`, assembled from its four stages.
`sinq` stands for `Math.sin` (an uninterpreted parameter). -/
def updateBatAI (sinq : ℚ → ℚ) (bat : Bat) (player : Player)
    (grid : ParticleGrid) : Bat :=
  let distToPlayerX := player.x - bat.x
  let distToPlayerY := player.y - bat.y
  let distSq :=
    distToPlayerX * distToPlayerX + distToPlayerY * distToPlayerY
  let bat : Bat := { bat with hoverOffset := bat.hoverOffset + bat.hoverSpeed }
  batMoveClampDamp grid
    (batDiveOrHover sinq distToPlayerX distToPlayerY grid
      (batTryStartDive distSq (batCooldownTick bat)))

theorem batMoveClampDamp_isDiving (grid : ParticleGrid) (bat : Bat) :
    (batMoveClampDamp grid bat).isDiving = bat.isDiving := by
  unfold batMoveClampDamp
  dsimp only
  split_ifs <;> rfl

theorem batMoveClampDamp_diveCooldown (grid : ParticleGrid) (bat : Bat) :
    (batMoveClampDamp grid bat).diveCooldown = bat.diveCooldown := by
  unfold batMoveClampDamp
  dsimp only
  split_ifs <;> rfl

theorem batMoveClampDamp_vy (grid : ParticleGrid) (bat : Bat) :
    (batMoveClampDamp grid bat).vy = bat.vy * (19 / 20) := by
  unfold batMoveClampDamp
  dsimp only
  split_ifs <;> rfl

/-- C3 (amended): (i) a hovering bat with dive-cooldown 0 within Euclidean
distance 40 of the player (and no solid probed beneath it) ends the tick
Diving with its cooldown equal to 120 — the 120 is written at the *entry*
transition; (ii) a bat already Diving that probes a solid cell beneath
its lower edge ends the tick Hovering with `vy` negative, and its
cooldown at that moment is its start-of-tick value minus one (not 120):
the cooldown decrements every tick, including throughout the dive. -/
theorem updateBatAI_dive_transitions (sinq : ℚ → ℚ) :
    (∀ (bat : Bat) (player : Player) (grid : ParticleGrid),
      bat.isDiving = false → bat.diveCooldown = 0 →
      (player.x - bat.x) * (player.x - bat.x) +
          (player.y - bat.y) * (player.y - bat.y) < 1600 →
      batProbeSolid grid bat = false →
      (updateBatAI sinq bat player grid).isDiving = true ∧
        (updateBatAI sinq bat player grid).diveCooldown = 120) ∧
    (∀ (bat : Bat) (player : Player) (grid : ParticleGrid),
      bat.isDiving = true → batProbeSolid grid bat = true →
      (updateBatAI sinq bat player grid).isDiving = false ∧
        (updateBatAI sinq bat player grid).vy < 0 ∧
        (updateBatAI sinq bat player grid).diveCooldown
          = bat.diveCooldown - 1) := by
  constructor
  · intro bat player grid h1 h2 h3 hprobe
    unfold updateBatAI
    dsimp only
    have hc : batCooldownTick { bat with
        hoverOffset := bat.hoverOffset + bat.hoverSpeed } = { bat with
        hoverOffset := bat.hoverOffset + bat.hoverSpeed } := by
      unfold batCooldownTick
      rw [if_neg (by dsimp only; omega)]
    rw [hc]
    have hstart : batTryStartDive
        ((player.x - bat.x) * (player.x - bat.x) +
          (player.y - bat.y) * (player.y - bat.y))
        { bat with hoverOffset := bat.hoverOffset + bat.hoverSpeed }
        = { bat with
            hoverOffset := bat.hoverOffset + bat.hoverSpeed,
            isDiving := true, diveCooldown := 120 } := by
      unfold batTryStartDive
      rw [if_pos ⟨h1, h2, h3⟩]
    rw [hstart]
    have hdive : batDiveOrHover sinq (player.x - bat.x) (player.y - bat.y)
        grid
        { bat with
          hoverOffset := bat.hoverOffset + bat.hoverSpeed,
          isDiving := true, diveCooldown := 120 }
        = { bat with
            hoverOffset := bat.hoverOffset + bat.hoverSpeed,
            isDiving := true, diveCooldown := 120,
            vx := if player.x - bat.x > 0 then 3 else -3,
            vy := if player.y - bat.y > 0 then 3 else -3 } := by
      unfold batDiveOrHover
      rw [if_pos rfl]
      dsimp only
      rw [if_neg (by simp only [Bool.not_eq_true]; exact hprobe)]
    rw [hdive]
    rw [batMoveClampDamp_isDiving, batMoveClampDamp_diveCooldown]
    exact ⟨rfl, rfl⟩
  · intro bat player grid h1 hprobe
    unfold updateBatAI
    dsimp only
    have hstart : ∀ b : Bat, b.isDiving = true →
        batTryStartDive
          ((player.x - bat.x) * (player.x - bat.x) +
            (player.y - bat.y) * (player.y - bat.y)) b = b := by
      intro b hb
      unfold batTryStartDive
      rw [if_neg (by rintro ⟨hfalse, -⟩; rw [hb] at hfalse; cases hfalse)]
    by_cases hcd : bat.diveCooldown > 0
    · have hc : batCooldownTick { bat with
          hoverOffset := bat.hoverOffset + bat.hoverSpeed } = { bat with
          hoverOffset := bat.hoverOffset + bat.hoverSpeed,
          diveCooldown := bat.diveCooldown - 1 } := by
        unfold batCooldownTick
        rw [if_pos (by dsimp only; omega)]
      rw [hc]
      rw [hstart { bat with
        hoverOffset := bat.hoverOffset + bat.hoverSpeed,
        diveCooldown := bat.diveCooldown - 1 } h1]
      have hdive : batDiveOrHover sinq (player.x - bat.x)
          (player.y - bat.y) grid
          { bat with
            hoverOffset := bat.hoverOffset + bat.hoverSpeed,
            diveCooldown := bat.diveCooldown - 1 }
          = { bat with
              hoverOffset := bat.hoverOffset + bat.hoverSpeed,
              diveCooldown := bat.diveCooldown - 1,
              vx := if player.x - bat.x > 0 then 3 else -3,
              isDiving := false, vy := -4 } := by
        unfold batDiveOrHover
        rw [if_pos (by exact h1)]
        dsimp only
        rw [if_pos (by exact hprobe)]
      rw [hdive]
      rw [batMoveClampDamp_isDiving, batMoveClampDamp_diveCooldown,
        batMoveClampDamp_vy]
      refine ⟨rfl, by norm_num, rfl⟩
    · have h0 : bat.diveCooldown = 0 := by omega
      have hc : batCooldownTick { bat with
          hoverOffset := bat.hoverOffset + bat.hoverSpeed } = { bat with
          hoverOffset := bat.hoverOffset + bat.hoverSpeed } := by
        unfold batCooldownTick
        rw [if_neg (by dsimp only; omega)]
      rw [hc]
      rw [hstart { bat with
        hoverOffset := bat.hoverOffset + bat.hoverSpeed } h1]
      have hdive : batDiveOrHover sinq (player.x - bat.x)
          (player.y - bat.y) grid
          { bat with hoverOffset := bat.hoverOffset + bat.hoverSpeed }
          = { bat with
              hoverOffset := bat.hoverOffset + bat.hoverSpeed,
              vx := if player.x - bat.x > 0 then 3 else -3,
              isDiving := false, vy := -4 } := by
        unfold batDiveOrHover
        rw [if_pos (by exact h1)]
        dsimp only
        rw [if_pos (by exact hprobe)]
      rw [hdive]
      rw [batMoveClampDamp_isDiving, batMoveClampDamp_diveCooldown,
        batMoveClampDamp_vy]
      refine ⟨rfl, by norm_num, ?_⟩
      show bat.diveCooldown = bat.diveCooldown - 1
      omega

theorem batCooldownTick_zero (bat : Bat) (h : bat.diveCooldown = 0) :
    batCooldownTick bat = bat := by
  unfold batCooldownTick
  rw [if_neg (by omega)]

theorem batCooldownTick_pos (bat : Bat) (h : bat.diveCooldown > 0) :
    batCooldownTick bat = { bat with diveCooldown := bat.diveCooldown - 1 } := by
  unfold batCooldownTick
  rw [if_pos h]

theorem batTryStartDive_start (distSq : ℚ) (bat : Bat)
    (h1 : bat.isDiving = false) (h2 : bat.diveCooldown = 0)
    (h3 : distSq < 1600) :
    batTryStartDive distSq bat
      = { bat with isDiving := true, diveCooldown := 120 } := by
  unfold batTryStartDive
  rw [if_pos ⟨h1, h2, h3⟩]

theorem batTryStartDive_skip (distSq : ℚ) (bat : Bat)
    (h : bat.isDiving = true) : batTryStartDive distSq bat = bat := by
  unfold batTryStartDive
  rw [if_neg (by rintro ⟨hfalse, -⟩; rw [h] at hfalse; cases hfalse)]

theorem batDiveOrHover_continue (sinq : ℚ → ℚ)
    (distToPlayerX distToPlayerY : ℚ) (grid : ParticleGrid) (bat : Bat)
    (h : bat.isDiving = true) (hp : batProbeSolid grid bat = false) :
    batDiveOrHover sinq distToPlayerX distToPlayerY grid bat
      = { bat with
          vx := if distToPlayerX > 0 then 3 else -3,
          vy := if distToPlayerY > 0 then 3 else -3 } := by
  unfold batDiveOrHover
  rw [if_pos (by exact h)]
  dsimp only
  rw [if_neg (by simp only [Bool.not_eq_true]; exact hp)]

theorem batDiveOrHover_exit (sinq : ℚ → ℚ)
    (distToPlayerX distToPlayerY : ℚ) (grid : ParticleGrid) (bat : Bat)
    (h : bat.isDiving = true) (hp : batProbeSolid grid bat = true) :
    batDiveOrHover sinq distToPlayerX distToPlayerY grid bat
      = { bat with
          vx := if distToPlayerX > 0 then 3 else -3,
          isDiving := false, vy := -4 } := by
  unfold batDiveOrHover
  rw [if_pos (by exact h)]
  dsimp only
  rw [if_pos (by exact hp)]

/-- `Math.sin` oracle for the concrete bat run (never consulted: the bat
is diving on both ticks). -/
def c3sin : ℚ → ℚ := fun _ => 0

/-- A 50×50 grid with a single Dirt cell at (7, 16), Air elsewhere. -/
def c3grid : ParticleGrid :=
  ParticleGrid.mk 50 50
    (fun a b => if a = 7 ∧ b = 16 then ⟨DIRT, false⟩ else ⟨AIR, false⟩)

/-- A hovering bat at (10, 10) with dive-cooldown 0. -/
def c3bat : Bat :=
  { x := 10, y := 10, vx := 0, vy := 0, width := 2, height := 2,
    onGround := false, health := 20, maxHealth := 20, hoverOffset := 0,
    hoverSpeed := 1 / 20, diveCooldown := 0, isDiving := false }

/-- The player standing at (10, 30): distance 20 below the bat. -/
def c3player : Player :=
  { x := 10, y := 30, vx := 0, vy := 0, width := 3, height := 3,
    onGround := false, health := 100, maxHealth := 100,
    attackCooldown := 0, attackFrame := 0 }

/-- The bat after tick 1: entered the dive (cooldown 120), moved to
(7, 13), still above Air. -/
def c3bat1 : Bat :=
  { x := 7, y := 13, vx := -(57 / 20), vy := 57 / 20, width := 2,
    height := 2, onGround := false, health := 20, maxHealth := 20,
    hoverOffset := 1 / 20, hoverSpeed := 1 / 20, diveCooldown := 120,
    isDiving := true }

/-- The bat after tick 2: probed the Dirt at (7, 16) beneath its lower
edge, exited the dive with `vy` kicked upward — cooldown now 119. -/
def c3bat2 : Bat :=
  { x := 10, y := 9, vx := 57 / 20, vy := -(19 / 5), width := 2,
    height := 2, onGround := false, health := 20, maxHealth := 20,
    hoverOffset := 1 / 10, hoverSpeed := 1 / 20, diveCooldown := 119,
    isDiving := false }

theorem updateBatAI_tick1 :
    updateBatAI c3sin c3bat c3player c3grid = c3bat1 := by
  unfold updateBatAI
  dsimp only [c3bat, c3player]
  rw [batCooldownTick_zero _ rfl]
  rw [batTryStartDive_start _ _ rfl rfl (by norm_num)]
  have hp1 : batProbeSolid c3grid
      { x := (10 : ℚ), y := 10, vx := 0, vy := 0, width := 2, height := 2,
        onGround := false, health := 20, maxHealth := 20,
        hoverOffset := 0 + 1 / 20, hoverSpeed := 1 / 20,
        diveCooldown := 120, isDiving := true } = false := by
    unfold batProbeSolid c3grid
    dsimp only
    rw [show ⌊(10 : ℚ) + ((2 : ℕ) : ℚ) + 1⌋ = (13 : ℤ) from by
      push_cast; norm_num]
    rw [if_pos (by omega)]
    rw [show ⌊(10 : ℚ)⌋ = (10 : ℤ) from by norm_num]
    rw [ParticleGrid.get_eq_some_of_inBounds _
      (by unfold ParticleGrid.inBounds; dsimp only; omega)]
    dsimp only
    rw [if_neg (by omega)]
    rfl
  rw [batDiveOrHover_continue c3sin _ _ c3grid _ rfl hp1]
  unfold batMoveClampDamp
  dsimp only
  rw [show (if (10 : ℚ) - 10 > 0 then (3 : ℚ) else -3) = -3 from by
    norm_num]
  rw [show (if (30 : ℚ) - 10 > 0 then (3 : ℚ) else -3) = 3 from by
    norm_num]
  unfold c3bat1
  norm_num [c3grid, Bat.mk.injEq, Entity.mk.injEq]

theorem updateBatAI_tick2 :
    updateBatAI c3sin c3bat1 c3player c3grid = c3bat2 := by
  unfold updateBatAI
  dsimp only [c3bat1, c3player]
  rw [batCooldownTick_pos _ (by norm_num)]
  rw [batTryStartDive_skip _ _ rfl]
  have hp2 : batProbeSolid c3grid
      { x := (7 : ℚ), y := 13, vx := -(57 / 20), vy := 57 / 20,
        width := 2, height := 2, onGround := false, health := 20,
        maxHealth := 20, hoverOffset := 1 / 20 + 1 / 20,
        hoverSpeed := 1 / 20, diveCooldown := 120 - 1,
        isDiving := true } = true := by
    unfold batProbeSolid c3grid
    dsimp only
    rw [show ⌊(13 : ℚ) + ((2 : ℕ) : ℚ) + 1⌋ = (16 : ℤ) from by
      push_cast; norm_num]
    rw [if_pos (by omega)]
    rw [show ⌊(7 : ℚ)⌋ = (7 : ℤ) from by norm_num]
    rw [ParticleGrid.get_eq_some_of_inBounds _
      (by unfold ParticleGrid.inBounds; dsimp only; omega)]
    dsimp only
    rw [if_pos ⟨rfl, rfl⟩]
    rfl
  rw [batDiveOrHover_exit c3sin _ _ c3grid _ rfl hp2]
  unfold batMoveClampDamp
  dsimp only
  rw [show (if (10 : ℚ) - 7 > 0 then (3 : ℚ) else -3) = 3 from by
    norm_num]
  unfold c3bat2
  norm_num [c3grid, Bat.mk.injEq, Entity.mk.injEq]

/-- C3 counterexample to the claim as stated: the bat enters its dive on
tick 1 (cooldown set to 120 at entry); on tick 2 it probes the solid cell
beneath it and transitions back to Hovering with `vy < 0` — but at that
moment its cooldown is 119, not 120. -/
theorem updateBatAI_cooldown_counterexample :
    (updateBatAI c3sin c3bat c3player c3grid).isDiving = true ∧
      (updateBatAI c3sin c3bat c3player c3grid).diveCooldown = 120 ∧
      (updateBatAI c3sin (updateBatAI c3sin c3bat c3player c3grid)
          c3player c3grid).isDiving = false ∧
      (updateBatAI c3sin (updateBatAI c3sin c3bat c3player c3grid)
          c3player c3grid).vy < 0 ∧
      (updateBatAI c3sin (updateBatAI c3sin c3bat c3player c3grid)
          c3player c3grid).diveCooldown = 119 := by
  rw [updateBatAI_tick1, updateBatAI_tick2]
  refine ⟨rfl, rfl, rfl, by norm_num [c3bat2], rfl⟩

/-- Concrete witness for the amended C3 theorem: both transition parts
applied to the two concrete ticks above. -/
theorem updateBatAI_dive_transitions_witness :
    ((updateBatAI c3sin c3bat c3player c3grid).isDiving = true ∧
        (updateBatAI c3sin c3bat c3player c3grid).diveCooldown = 120) ∧
      ((updateBatAI c3sin c3bat1 c3player c3grid).isDiving = false ∧
        (updateBatAI c3sin c3bat1 c3player c3grid).vy < 0 ∧
        (updateBatAI c3sin c3bat1 c3player c3grid).diveCooldown
          = c3bat1.diveCooldown - 1) :=
  ⟨(updateBatAI_dive_transitions c3sin).1 c3bat c3player c3grid rfl rfl
      (by norm_num [c3bat, c3player])
      (by
        have h := updateBatAI_tick1
        exact (by
          unfold batProbeSolid c3grid
          dsimp only [c3bat]
          rw [show ⌊(10 : ℚ) + ((2 : ℕ) : ℚ) + 1⌋ = (13 : ℤ) from by
            push_cast; norm_num]
          rw [if_pos (by omega)]
          rw [show ⌊(10 : ℚ)⌋ = (10 : ℤ) from by norm_num]
          rw [ParticleGrid.get_eq_some_of_inBounds _
            (by unfold ParticleGrid.inBounds; dsimp only; omega)]
          dsimp only
          rw [if_neg (by omega)]
          rfl)),
    (updateBatAI_dive_transitions c3sin).2 c3bat1 c3player c3grid rfl
      (by
        unfold batProbeSolid c3grid
        dsimp only [c3bat1]
        rw [show ⌊(13 : ℚ) + ((2 : ℕ) : ℚ) + 1⌋ = (16 : ℤ) from by
          push_cast; norm_num]
        rw [if_pos (by omega)]
        rw [show ⌊(7 : ℚ)⌋ = (7 : ℤ) from by norm_num]
        rw [ParticleGrid.get_eq_some_of_inBounds _
          (by unfold ParticleGrid.inBounds; dsimp only; omega)]
        dsimp only
        rw [if_pos ⟨rfl, rfl⟩]
        rfl)⟩

/-! ### C2: material conservation across one `step()` -/

/-- The in-range coordinates of a grid, as a finite set. -/
def gridPositions (g : ParticleGrid) : Finset (Int × Int) :=
  (Finset.Ico (0 : Int) (g.width : Int)) ×ˢ
    (Finset.Ico (0 : Int) (g.height : Int))

/-- The number of in-range cells holding material `t`. -/
def typeCount (g : ParticleGrid) (t : ParticleType) : Nat :=
  ∑ p in gridPositions g, if (g.cells p.1 p.2).type = t then 1 else 0

/-- The number of in-range cells holding any material other than Air. -/
def nonAirCount (g : ParticleGrid) : Nat :=
  ∑ p in gridPositions g, if (g.cells p.1 p.2).type = AIR then 0 else 1

theorem mem_gridPositions (g : ParticleGrid) (p : Int × Int) :
    p ∈ gridPositions g ↔ g.inBounds p.1 p.2 := by
  unfold gridPositions ParticleGrid.inBounds
  simp [Finset.mem_product, Finset.mem_Ico, and_assoc]

/-- Counts only depend on the dimensions and the in-range cell types. -/
theorem typeCount_congr {g g' : ParticleGrid} (hw : g'.width = g.width)
    (hh : g'.height = g.height)
    (hc : ∀ x y : Int, g.inBounds x y →
      (g'.cells x y).type = (g.cells x y).type) :
    ∀ t, typeCount g' t = typeCount g t := by
  intro t
  unfold typeCount
  have hs : gridPositions g' = gridPositions g := by
    unfold gridPositions
    rw [hw, hh]
  rw [hs]
  refine Finset.sum_congr rfl ?_
  intro p hp
  rw [hc p.1 p.2 ((mem_gridPositions g p).mp hp)]

theorem nonAirCount_congr {g g' : ParticleGrid} (hw : g'.width = g.width)
    (hh : g'.height = g.height)
    (hc : ∀ x y : Int, g.inBounds x y →
      (g'.cells x y).type = (g.cells x y).type) :
    nonAirCount g' = nonAirCount g := by
  unfold nonAirCount
  have hs : gridPositions g' = gridPositions g := by
    unfold gridPositions
    rw [hw, hh]
  rw [hs]
  refine Finset.sum_congr rfl ?_
  intro p hp
  rw [hc p.1 p.2 ((mem_gridPositions g p).mp hp)]

theorem swap_width (g : ParticleGrid) (x1 y1 x2 y2 : Int) :
    (g.swap x1 y1 x2 y2).width = g.width := by
  unfold ParticleGrid.swap
  split <;> rfl

theorem swap_height (g : ParticleGrid) (x1 y1 x2 y2 : Int) :
    (g.swap x1 y1 x2 y2).height = g.height := by
  unfold ParticleGrid.swap
  split <;> rfl

theorem set_width (g : ParticleGrid) (x y : Int) (p : Particle) :
    (g.set x y p).width = g.width := by
  unfold ParticleGrid.set
  split <;> rfl

theorem set_height (g : ParticleGrid) (x y : Int) (p : Particle) :
    (g.set x y p).height = g.height := by
  unfold ParticleGrid.set
  split <;> rfl

/-- A `swap` permutes two in-range cells (or does nothing), so every
material count is unchanged. -/
theorem typeCount_swap (g : ParticleGrid) (x1 y1 x2 y2 : Int) :
    ∀ t, typeCount (g.swap x1 y1 x2 y2) t = typeCount g t := by
  intro t
  by_cases hg : g.inBounds x1 y1 ∧ g.inBounds x2 y2
  · have hs : gridPositions (g.swap x1 y1 x2 y2) = gridPositions g := by
      unfold gridPositions
      rw [swap_width, swap_height]
    unfold typeCount
    rw [hs]
    have hcells : ∀ z : Int × Int,
        (g.swap x1 y1 x2 y2).cells z.1 z.2
          = g.cells (Equiv.swap ((x1, y1) : Int × Int) (x2, y2) z).1
              (Equiv.swap ((x1, y1) : Int × Int) (x2, y2) z).2 := by
      intro z
      unfold ParticleGrid.swap
      rw [if_pos hg]
      dsimp only
      rw [Equiv.swap_apply_def]
      by_cases h1 : z = (x1, y1)
      · rw [if_pos h1, if_pos (by rw [h1]; exact ⟨rfl, rfl⟩)]
      · rw [if_neg h1]
        by_cases h2 : z = (x2, y2)
        · rw [if_pos h2,
            if_neg (by rw [h2] at h1 ⊢; intro hc; exact h1 (by
              obtain ⟨ha, hb⟩ := hc
              exact Prod.ext ha hb)),
            if_pos (by rw [h2]; exact ⟨rfl, rfl⟩)]
        · rw [if_neg h2,
            if_neg (fun hc => h1 (Prod.ext hc.1 hc.2)),
            if_neg (fun hc => h2 (Prod.ext hc.1 hc.2))]
    refine Eq.trans (Finset.sum_congr rfl (fun p _ => by rw [hcells p]))
      (Finset.sum_equiv (Equiv.swap ((x1, y1) : Int × Int) (x2, y2)) ?_ ?_)
    · intro z
      rw [mem_gridPositions, mem_gridPositions, Equiv.swap_apply_def]
      by_cases h1 : z = (x1, y1)
      · rw [if_pos h1, h1]
        exact ⟨fun _ => hg.2, fun _ => hg.1⟩
      · rw [if_neg h1]
        by_cases h2 : z = (x2, y2)
        · rw [if_pos h2, h2]
          exact ⟨fun _ => hg.1, fun _ => hg.2⟩
        · rw [if_neg h2]
    · intro z _
      rfl
  · unfold ParticleGrid.swap
    rw [if_neg hg]

/-- Marking a cell updated changes no material. -/
theorem typeCount_markUpdated (g : ParticleGrid) (x y : Int) :
    ∀ t, typeCount (g.markUpdated x y) t = typeCount g t := by
  refine typeCount_congr rfl rfl ?_
  intro a b _
  unfold ParticleGrid.markUpdated
  dsimp only
  by_cases h : a = x ∧ b = y
  · rw [if_pos h, h.1, h.2]
  · rw [if_neg h]

theorem typeCount_resetUpdated (g : ParticleGrid) :
    ∀ t, typeCount g.resetUpdated t = typeCount g t := by
  refine typeCount_congr rfl rfl ?_
  intro a b _
  unfold ParticleGrid.resetUpdated
  dsimp only
  split <;> rfl

/-- Writing a cell trades the old material for the new one, additively. -/
theorem typeCount_set_add (g : ParticleGrid) (x y : Int) (p : Particle)
    (hin : g.inBounds x y) (t : ParticleType) :
    typeCount (g.set x y p) t
        + (if (g.cells x y).type = t then 1 else 0)
      = typeCount g t + (if p.type = t then 1 else 0) := by
  have hs : gridPositions (g.set x y p) = gridPositions g := by
    unfold gridPositions
    rw [set_width, set_height]
  have hmem : ((x, y) : Int × Int) ∈ gridPositions g :=
    (mem_gridPositions g (x, y)).mpr hin
  unfold typeCount
  rw [hs]
  rw [Finset.sum_eq_sum_diff_singleton_add hmem]
  rw [Finset.sum_eq_sum_diff_singleton_add hmem
    (fun p' => if (g.cells p'.1 p'.2).type = t then 1 else 0)]
  dsimp only
  have hdiff : ∑ z in gridPositions g \ {((x, y) : Int × Int)},
      (if ((g.set x y p).cells z.1 z.2).type = t then 1 else 0)
      = ∑ z in gridPositions g \ {((x, y) : Int × Int)},
      (if (g.cells z.1 z.2).type = t then 1 else 0) := by
    refine Finset.sum_congr rfl ?_
    intro z hz
    rw [Finset.mem_sdiff, Finset.mem_singleton] at hz
    have hcell : (g.set x y p).cells z.1 z.2 = g.cells z.1 z.2 := by
      unfold ParticleGrid.set
      rw [if_pos hin]
      dsimp only
      exact if_neg (fun hc => hz.2 (Prod.ext hc.1 hc.2))
    rw [hcell]
  rw [hdiff]
  have hself : ((g.set x y p).cells x y) = p := by
    unfold ParticleGrid.set
    rw [if_pos hin]
    dsimp only
    exact if_pos ⟨rfl, rfl⟩
  rw [hself]
  omega

/-- The conservation relation carried through one `step()`: dimensions are
stable, every material other than Dirt and Grass keeps its count, the
combined Dirt+Grass count is constant, and Grass never increases. -/
def CountRel (g g' : ParticleGrid) : Prop :=
  g'.width = g.width ∧ g'.height = g.height ∧
    (∀ t, t ≠ DIRT → t ≠ GRASS → typeCount g' t = typeCount g t) ∧
    typeCount g' DIRT + typeCount g' GRASS
      = typeCount g DIRT + typeCount g GRASS ∧
    typeCount g' GRASS ≤ typeCount g GRASS

theorem CountRel.refl (g : ParticleGrid) : CountRel g g :=
  ⟨rfl, rfl, fun _ _ _ => rfl, rfl, le_rfl⟩

theorem CountRel.trans {g1 g2 g3 : ParticleGrid} (h1 : CountRel g1 g2)
    (h2 : CountRel g2 g3) : CountRel g1 g3 := by
  obtain ⟨w1, h1', c1, s1, m1⟩ := h1
  obtain ⟨w2, h2', c2, s2, m2⟩ := h2
  exact ⟨w2.trans w1, h2'.trans h1',
    fun t ha hb => (c2 t ha hb).trans (c1 t ha hb),
    s2.trans s1, m2.trans m1⟩

/-- All counts equal (plus stable dimensions) implies the relation. -/
theorem CountRel.of_counts_eq {g g' : ParticleGrid} (hw : g'.width = g.width)
    (hh : g'.height = g.height)
    (hc : ∀ t, typeCount g' t = typeCount g t) : CountRel g g' :=
  ⟨hw, hh, fun t _ _ => hc t, by rw [hc, hc], (hc GRASS).le⟩

theorem set_out_of_range (g : ParticleGrid) (x y : Int) (p : Particle)
    (h : ¬ g.inBounds x y) : g.set x y p = g := by
  unfold ParticleGrid.set
  rw [if_neg h]

/-- The dirt rule only swaps cells and marks flags: every count survives. -/
theorem CountRel_updateDirt (g : ParticleGrid) (left x y : Int) :
    CountRel g (g.updateDirt left x y) := by
  unfold ParticleGrid.updateDirt
  dsimp only
  split_ifs with h1 h2 h3
  · exact CountRel.of_counts_eq (swap_width g x y x (y + 1))
      (swap_height g x y x (y + 1))
      (fun t => (typeCount_markUpdated _ x (y + 1) t).trans
        (typeCount_swap g x y x (y + 1) t))
  · exact CountRel.of_counts_eq (swap_width g x y (x + left) (y + 1))
      (swap_height g x y (x + left) (y + 1))
      (fun t => (typeCount_markUpdated _ (x + left) (y + 1) t).trans
        (typeCount_swap g x y (x + left) (y + 1) t))
  · exact CountRel.of_counts_eq (swap_width g x y (x + -left) (y + 1))
      (swap_height g x y (x + -left) (y + 1))
      (fun t => (typeCount_markUpdated _ (x + -left) (y + 1) t).trans
        (typeCount_swap g x y (x + -left) (y + 1) t))
  · exact CountRel.refl g

/-- The grass rule converts one Grass cell to Dirt in place and then only
swaps and marks: Grass goes down by one exactly as Dirt goes up by one. -/
theorem CountRel_updateGrass (g : ParticleGrid) (x y : Int)
    (hG : (g.cells x y).type = GRASS) :
    CountRel g (g.updateGrass x y) := by
  unfold ParticleGrid.updateGrass
  split_ifs with h1
  · by_cases hin : g.inBounds x y
    · have hstage : ∀ t,
          typeCount (((g.set x y ⟨DIRT, false⟩).swap x y x
            (y + 1)).markUpdated x (y + 1)) t
          = typeCount (g.set x y ⟨DIRT, false⟩) t := by
        intro t
        exact (typeCount_markUpdated _ x (y + 1) t).trans
          (typeCount_swap (g.set x y ⟨DIRT, false⟩) x y x (y + 1) t)
      have hset := fun t => typeCount_set_add g x y ⟨DIRT, false⟩ hin t
      rw [hG] at hset
      refine ⟨?_, ?_, ?_, ?_, ?_⟩
      · exact (swap_width _ _ _ _ _).trans (set_width g x y ⟨DIRT, false⟩)
      · exact (swap_height _ _ _ _ _).trans (set_height g x y ⟨DIRT, false⟩)
      · intro t hd hg2
        have h := hset t
        rw [if_neg (fun hc => hg2 hc.symm),
          if_neg (fun hc => hd hc.symm)] at h
        rw [hstage t]
        omega
      · have hD := hset DIRT
        have hG2 := hset GRASS
        rw [if_neg (fun hc => ParticleType.noConfusion hc)] at hD
        rw [if_pos rfl] at hD
        rw [if_pos rfl] at hG2
        rw [if_neg (fun hc => ParticleType.noConfusion hc)] at hG2
        rw [hstage DIRT, hstage GRASS]
        omega
      · have hG2 := hset GRASS
        rw [if_pos rfl] at hG2
        rw [if_neg (fun hc => ParticleType.noConfusion hc)] at hG2
        rw [hstage GRASS]
        omega
    · rw [set_out_of_range g x y ⟨DIRT, false⟩ hin]
      exact CountRel.of_counts_eq (swap_width g x y x (y + 1))
        (swap_height g x y x (y + 1))
        (fun t => (typeCount_markUpdated _ x (y + 1) t).trans
          (typeCount_swap g x y x (y + 1) t))
  · exact CountRel.refl g

theorem CountRel_stepCell (bias : Int → Int → Bool) (g : ParticleGrid)
    (x y : Int) : CountRel g (g.stepCell bias x y) := by
  unfold ParticleGrid.stepCell
  dsimp only
  by_cases h1 : (g.cells x y).updated = true
  · rw [if_pos h1]
    exact CountRel.refl g
  · rw [if_neg h1]
    by_cases h2 : (g.cells x y).type = DIRT
    · rw [if_pos h2]
      exact CountRel_updateDirt g _ x y
    · rw [if_neg h2]
      by_cases h3 : (g.cells x y).type = GRASS
      · rw [if_pos h3]
        exact CountRel_updateGrass g x y h3
      · rw [if_neg h3]
        exact CountRel.refl g

/-- A fold preserves any reflexive transitive step-invariant relation. -/
theorem foldl_rel {β α : Type} (R : β → β → Prop)
    (hrefl : ∀ s, R s s) (htrans : ∀ a b c, R a b → R b c → R a c)
    (f : β → α → β) (hf : ∀ s a, R s (f s a)) :
    ∀ (l : List α) (s : β), R s (l.foldl f s) := by
  intro l
  induction l with
  | nil => intro s; exact hrefl s
  | cons a l ih =>
    intro s
    exact htrans _ _ _ (hf s a) (ih (f s a))

theorem CountRel_updatePhysics (g : ParticleGrid)
    (bias : Int → Int → Bool) : CountRel g (g.updatePhysics bias) := by
  unfold ParticleGrid.updatePhysics
  refine CountRel.trans ?_ (foldl_rel CountRel CountRel.refl
    (fun _ _ _ => CountRel.trans) _
    (fun s (p : Int × Int) => CountRel_stepCell bias s p.1 p.2) _ g.resetUpdated)
  exact CountRel.of_counts_eq rfl rfl (typeCount_resetUpdated g)

/-- Splitting every in-range cell into its Air / non-Air indicator. -/
theorem nonAirCount_add_typeCount_AIR (g : ParticleGrid) :
    nonAirCount g + typeCount g AIR = g.width * g.height := by
  unfold nonAirCount typeCount
  rw [← Finset.sum_add_distrib]
  have h1 : ∀ p ∈ gridPositions g,
      ((if (g.cells p.1 p.2).type = AIR then 0 else 1)
        + if (g.cells p.1 p.2).type = AIR then 1 else 0) = 1 := by
    intro p _
    split_ifs <;> rfl
  rw [Finset.sum_congr rfl h1]
  rw [Finset.sum_const, smul_eq_mul, mul_one]
  unfold gridPositions
  rw [Finset.card_product]
  simp

/-- C2: one `step()` keeps the total number of non-Air cells, keeps every
material count except that Grass may convert to Dirt in place (the
combined Dirt+Grass count is constant and Grass never increases); nothing
vanishes or duplicates. -/
theorem updatePhysics_conservation (g : ParticleGrid)
    (bias : Int → Int → Bool) :
    nonAirCount (g.updatePhysics bias) = nonAirCount g ∧
      (∀ t, t ≠ DIRT → t ≠ GRASS →
        typeCount (g.updatePhysics bias) t = typeCount g t) ∧
      typeCount (g.updatePhysics bias) DIRT
          + typeCount (g.updatePhysics bias) GRASS
        = typeCount g DIRT + typeCount g GRASS ∧
      typeCount (g.updatePhysics bias) GRASS ≤ typeCount g GRASS := by
  obtain ⟨hw, hh, hother, hsum, hmono⟩ := CountRel_updatePhysics g bias
  refine ⟨?_, hother, hsum, hmono⟩
  have h1 := nonAirCount_add_typeCount_AIR (g.updatePhysics bias)
  have h2 := nonAirCount_add_typeCount_AIR g
  have hair := hother AIR (fun hc => ParticleType.noConfusion hc)
    (fun hc => ParticleType.noConfusion hc)
  rw [hw, hh] at h1
  omega

/-- A 3×3 demo grid: Grass at (0,0), Dirt at (1,1), Air elsewhere. -/
def c2grid : ParticleGrid :=
  ParticleGrid.mk 3 3 (fun a b =>
    if a = 0 ∧ b = 0 then ⟨GRASS, false⟩
    else if a = 1 ∧ b = 1 then ⟨DIRT, false⟩
    else ⟨AIR, false⟩)

/-- Concrete witness for C2 on the demo grid (left-first bias). -/
theorem updatePhysics_conservation_witness :
    typeCount (c2grid.updatePhysics (fun _ _ => true)) STONE
        = typeCount c2grid STONE ∧
      nonAirCount (c2grid.updatePhysics (fun _ _ => true))
        = nonAirCount c2grid :=
  ⟨(updatePhysics_conservation c2grid (fun _ _ => true)).2.1 STONE
      (by decide) (by decide),
    (updatePhysics_conservation c2grid (fun _ _ => true)).1⟩

/-! ### C7: settling of an isolated Dirt cell -/

theorem foldl_noop {β α : Type} (f : β → α → β) :
    ∀ (l : List α) (g : β), (∀ p ∈ l, f g p = g) → l.foldl f g = g := by
  intro l
  induction l with
  | nil => intro g _; rfl
  | cons a l ih =>
    intro g h
    rw [List.foldl_cons, h a (List.mem_cons_self a l)]
    exact ih g (fun p hp => h p (List.mem_cons_of_mem a hp))

/-- A fold in which exactly one action fires: every other list element
leaves the pre-state alone, the distinguished element `z` moves the state
to `g1`, and every element leaves `g1` alone. -/
theorem foldl_step_once {β α : Type} (f : β → α → β) (z : α) :
    ∀ (l : List α) (g0 g1 : β), z ∈ l →
      (∀ p ∈ l, p ≠ z → f g0 p = g0) → f g0 z = g1 →
      (∀ p ∈ l, f g1 p = g1) → l.foldl f g0 = g1 := by
  intro l
  induction l with
  | nil => intro g0 g1 hz; cases hz
  | cons a l ih =>
    intro g0 g1 hz h0 hstep h1
    by_cases ha : a = z
    · subst ha
      rw [List.foldl_cons, hstep]
      exact foldl_noop f l g1 (fun p hp => h1 p (List.mem_cons_of_mem a hp))
    · rw [List.foldl_cons, h0 a (List.mem_cons_self a l) ha]
      refine ih g0 g1 ?_ (fun p hp hpz => h0 p (List.mem_cons_of_mem a hp) hpz)
        hstep (fun p hp => h1 p (List.mem_cons_of_mem a hp))
      rcases List.mem_cons.mp hz with h | h
      · exact absurd h.symm ha
      · exact h

theorem scanOrder_mem_elim {w h : Nat} {p : Int × Int}
    (hp : p ∈ scanOrder w h) :
    ∃ i j : Nat, i < w ∧ j < h - 1 ∧ p = ((i : Int), (j : Int)) := by
  unfold scanOrder at hp
  obtain ⟨y, hy, hp2⟩ := List.mem_flatMap.mp hp
  obtain ⟨i, hi, hpe⟩ := List.mem_map.mp hp2
  rw [List.mem_reverse, List.mem_range] at hy
  exact ⟨i, y, List.mem_range.mp hi, hy, hpe.symm⟩

theorem scanOrder_mem_of (w h : Nat) {x y : Nat} (hx : x < w)
    (hy : y < h - 1) : ((x : Int), (y : Int)) ∈ scanOrder w h := by
  unfold scanOrder
  refine List.mem_flatMap.mpr ⟨y, ?_, ?_⟩
  · rw [List.mem_reverse, List.mem_range]
    exact hy
  · exact List.mem_map.mpr ⟨x, List.mem_range.mpr hx, rfl⟩

theorem stepCell_updated (bias : Int → Int → Bool) (g : ParticleGrid)
    (x y : Int) (h : (g.cells x y).updated = true) :
    g.stepCell bias x y = g := by
  unfold ParticleGrid.stepCell
  dsimp only
  rw [if_pos h]

theorem stepCell_inert (bias : Int → Int → Bool) (g : ParticleGrid)
    (x y : Int) (hd : (g.cells x y).type ≠ DIRT)
    (hg : (g.cells x y).type ≠ GRASS) : g.stepCell bias x y = g := by
  unfold ParticleGrid.stepCell
  dsimp only
  by_cases hu : (g.cells x y).updated = true
  · rw [if_pos hu]
  · rw [if_neg hu, if_neg hd, if_neg hg]

theorem updateDirt_blocked (g : ParticleGrid) (left x y : Int)
    (hl : left = -1 ∨ left = 1)
    (hb : isAirCell (g.get x (y + 1)) = false)
    (hL : isAirCell (g.get (x + -1) (y + 1)) = false)
    (hR : isAirCell (g.get (x + 1) (y + 1)) = false) :
    g.updateDirt left x y = g := by
  unfold ParticleGrid.updateDirt
  dsimp only
  rw [if_neg (by rw [hb]; exact Bool.false_ne_true)]
  rcases hl with rfl | rfl
  · rw [if_neg (by rw [hL]; exact Bool.false_ne_true)]
    rw [show (-(-1) : Int) = 1 from by norm_num]
    rw [if_neg (by rw [hR]; exact Bool.false_ne_true)]
  · rw [if_neg (by rw [hR]; exact Bool.false_ne_true)]
    rw [show (-(1) : Int) = -1 from by norm_num]
    rw [if_neg (by rw [hL]; exact Bool.false_ne_true)]

theorem stepCell_dirt_blocked (bias : Int → Int → Bool) (g : ParticleGrid)
    (x y : Int) (hD : (g.cells x y).type = DIRT)
    (hb : isAirCell (g.get x (y + 1)) = false)
    (hL : isAirCell (g.get (x + -1) (y + 1)) = false)
    (hR : isAirCell (g.get (x + 1) (y + 1)) = false) :
    g.stepCell bias x y = g := by
  unfold ParticleGrid.stepCell
  dsimp only
  by_cases hu : (g.cells x y).updated = true
  · rw [if_pos hu]
  · rw [if_neg hu, if_pos hD]
    exact updateDirt_blocked g _ x y
      (by by_cases hbias : bias x y = true <;> simp [hbias]) hb hL hR

theorem stepCell_dirt_falls (bias : Int → Int → Bool) (g : ParticleGrid)
    (x y : Int) (hu : (g.cells x y).updated = false)
    (hD : (g.cells x y).type = DIRT)
    (hA : isAirCell (g.get x (y + 1)) = true) :
    g.stepCell bias x y = (g.swap x y x (y + 1)).markUpdated x (y + 1) := by
  unfold ParticleGrid.stepCell
  dsimp only
  rw [if_neg (by rw [hu]; exact Bool.false_ne_true), if_pos hD]
  unfold ParticleGrid.updateDirt
  rw [if_pos hA]

theorem resetUpdated_cells_type (g : ParticleGrid) (a b : Int) :
    ((g.resetUpdated).cells a b).type = (g.cells a b).type := by
  unfold ParticleGrid.resetUpdated
  dsimp only
  split <;> rfl

theorem resetUpdated_cells_updated (g : ParticleGrid) (a b : Int)
    (h : g.inBounds a b) : ((g.resetUpdated).cells a b).updated = false := by
  unfold ParticleGrid.resetUpdated
  dsimp only
  rw [if_pos h]

theorem isAirCell_get_resetUpdated (g : ParticleGrid) (a b : Int) :
    isAirCell (g.resetUpdated.get a b) = isAirCell (g.get a b) := by
  unfold ParticleGrid.get ParticleGrid.resetUpdated ParticleGrid.inBounds
  dsimp only
  split_ifs <;> rfl

theorem swap_cells_fst (g : ParticleGrid) (x1 y1 x2 y2 : Int)
    (h : g.inBounds x1 y1 ∧ g.inBounds x2 y2) :
    (g.swap x1 y1 x2 y2).cells x1 y1 = g.cells x2 y2 := by
  unfold ParticleGrid.swap
  rw [if_pos h]
  dsimp only
  rw [if_pos ⟨rfl, rfl⟩]

theorem swap_cells_snd (g : ParticleGrid) (x1 y1 x2 y2 : Int)
    (h : g.inBounds x1 y1 ∧ g.inBounds x2 y2)
    (hne : ¬((x2 : Int), (y2 : Int)) = ((x1 : Int), (y1 : Int))) :
    (g.swap x1 y1 x2 y2).cells x2 y2 = g.cells x1 y1 := by
  unfold ParticleGrid.swap
  rw [if_pos h]
  dsimp only
  rw [if_neg (fun hc => hne (Prod.ext hc.1 hc.2)), if_pos ⟨rfl, rfl⟩]

theorem swap_cells_other (g : ParticleGrid) (x1 y1 x2 y2 a b : Int)
    (h1 : ¬((a : Int), (b : Int)) = ((x1 : Int), (y1 : Int)))
    (h2 : ¬((a : Int), (b : Int)) = ((x2 : Int), (y2 : Int))) :
    (g.swap x1 y1 x2 y2).cells a b = g.cells a b := by
  unfold ParticleGrid.swap
  split
  · dsimp only
    rw [if_neg (fun hc => h1 (Prod.ext hc.1 hc.2)),
      if_neg (fun hc => h2 (Prod.ext hc.1 hc.2))]
  · rfl

theorem markUpdated_cells_self (g : ParticleGrid) (x y : Int) :
    (g.markUpdated x y).cells x y = { g.cells x y with updated := true } := by
  unfold ParticleGrid.markUpdated
  dsimp only
  rw [if_pos ⟨rfl, rfl⟩]

theorem markUpdated_cells_other (g : ParticleGrid) (x y a b : Int)
    (h : ¬((a : Int), (b : Int)) = ((x : Int), (y : Int))) :
    (g.markUpdated x y).cells a b = g.cells a b := by
  unfold ParticleGrid.markUpdated
  dsimp only
  rw [if_neg (fun hc => h (Prod.ext hc.1 hc.2))]

/-- An isolated Dirt cell with Air directly below falls exactly one row in
one `step()`. -/
theorem dirt_falls_one_row (g : ParticleGrid) (bias : Int → Int → Bool)
    (x y : Nat) (hx : x < g.width) (hy : y + 1 < g.height)
    (hD : (g.cells (x : Int) (y : Int)).type = DIRT)
    (hA : (g.cells (x : Int) ((y : Int) + 1)).type = AIR)
    (hiso : ∀ a b : Int, g.inBounds a b → ¬(a = (x : Int) ∧ b = (y : Int)) →
      (g.cells a b).type ≠ DIRT ∧ (g.cells a b).type ≠ GRASS) :
    ((g.updatePhysics bias).cells (x : Int) (y : Int)).type = AIR ∧
      ((g.updatePhysics bias).cells (x : Int) ((y : Int) + 1)).type
        = DIRT := by
  have hin_xy : g.inBounds (x : Int) (y : Int) := by
    unfold ParticleGrid.inBounds
    omega
  have hin_below : g.inBounds (x : Int) ((y : Int) + 1) := by
    unfold ParticleGrid.inBounds
    omega
  have hin0_xy : g.resetUpdated.inBounds (x : Int) (y : Int) := hin_xy
  have hin0_below : g.resetUpdated.inBounds (x : Int) ((y : Int) + 1) :=
    hin_below
  have hguard : g.resetUpdated.inBounds (x : Int) (y : Int) ∧
      g.resetUpdated.inBounds (x : Int) ((y : Int) + 1) :=
    ⟨hin0_xy, hin0_below⟩
  have hfold : g.updatePhysics bias
      = ((g.resetUpdated.swap (x : Int) (y : Int) (x : Int)
          ((y : Int) + 1)).markUpdated (x : Int) ((y : Int) + 1)) := by
    unfold ParticleGrid.updatePhysics
    refine foldl_step_once _ ((x : Int), (y : Int)) _ _ _
      (scanOrder_mem_of g.width g.height hx (by omega)) ?_ ?_ ?_
    · intro p hp hne
      obtain ⟨i, j, hi, hj, rfl⟩ := scanOrder_mem_elim hp
      have hinij : g.inBounds (i : Int) (j : Int) := by
        unfold ParticleGrid.inBounds
        omega
      have hiso2 := hiso (i : Int) (j : Int) hinij
        (fun hc => hne (Prod.ext hc.1 hc.2))
      refine stepCell_inert bias _ _ _ ?_ ?_
      · rw [resetUpdated_cells_type]
        exact hiso2.1
      · rw [resetUpdated_cells_type]
        exact hiso2.2
    · refine stepCell_dirt_falls bias _ _ _ ?_ ?_ ?_
      · exact resetUpdated_cells_updated g _ _ hin_xy
      · rw [resetUpdated_cells_type]
        exact hD
      · rw [isAirCell_get_resetUpdated]
        unfold isAirCell
        rw [ParticleGrid.get_eq_some_of_inBounds g hin_below]
        exact decide_eq_true hA
    · intro p hp
      obtain ⟨i, j, hi, hj, rfl⟩ := scanOrder_mem_elim hp
      by_cases hc1 : ((i : Int), (j : Int))
          = ((x : Int), ((y : Int) + 1))
      · refine stepCell_updated bias _ _ _ ?_
        have h1 : (i : Int) = (x : Int) := congrArg Prod.fst hc1
        have h2 : (j : Int) = ((y : Int) + 1) := congrArg Prod.snd hc1
        rw [h1, h2, markUpdated_cells_self]
      · by_cases hc2 : ((i : Int), (j : Int)) = ((x : Int), (y : Int))
        · have h1 : (i : Int) = (x : Int) := congrArg Prod.fst hc2
          have h2 : (j : Int) = (y : Int) := congrArg Prod.snd hc2
          refine stepCell_inert bias _ _ _ ?_ ?_ <;>
            · rw [h1, h2]
              rw [markUpdated_cells_other _ _ _ _ _
                (by intro hc; have := congrArg Prod.snd hc; omega)]
              rw [swap_cells_fst _ _ _ _ _ hguard]
              rw [resetUpdated_cells_type, hA]
              intro hfalse
              cases hfalse
        · have hcells : (((g.resetUpdated.swap (x : Int) (y : Int) (x : Int)
              ((y : Int) + 1)).markUpdated (x : Int)
                ((y : Int) + 1)).cells (i : Int) (j : Int))
              = g.resetUpdated.cells (i : Int) (j : Int) := by
            rw [markUpdated_cells_other _ _ _ _ _ hc1]
            exact swap_cells_other _ _ _ _ _ _ _ hc2 hc1
          have hinij : g.inBounds (i : Int) (j : Int) := by
            unfold ParticleGrid.inBounds
            omega
          have hiso2 := hiso (i : Int) (j : Int) hinij
            (fun hc => hc2 (Prod.ext hc.1 hc.2))
          refine stepCell_inert bias _ _ _ ?_ ?_ <;>
            rw [hcells, resetUpdated_cells_type]
          · exact hiso2.1
          · exact hiso2.2
  rw [hfold]
  constructor
  · rw [markUpdated_cells_other _ _ _ _ _
      (by intro hc; have := congrArg Prod.snd hc; omega)]
    rw [swap_cells_fst _ _ _ _ _ hguard]
    rw [resetUpdated_cells_type]
    exact hA
  · rw [markUpdated_cells_self]
    show ((g.resetUpdated.swap (x : Int) (y : Int) (x : Int)
      ((y : Int) + 1)).cells (x : Int) ((y : Int) + 1)).type = DIRT
    rw [swap_cells_snd _ _ _ _ _ hguard
      (by intro hc; have := congrArg Prod.snd hc; omega)]
    rw [resetUpdated_cells_type]
    exact hD

/-- An isolated Dirt cell stays put when it sits on the bottom row, or
when the cell below and both diagonal-below cells are blocked. -/
theorem dirt_rests (g : ParticleGrid) (bias : Int → Int → Bool)
    (x y : Nat) (hx : x < g.width) (hy : y < g.height)
    (hD : (g.cells (x : Int) (y : Int)).type = DIRT)
    (hblock : y + 1 = g.height ∨
      (isAirCell (g.get (x : Int) ((y : Int) + 1)) = false ∧
        isAirCell (g.get ((x : Int) + -1) ((y : Int) + 1)) = false ∧
        isAirCell (g.get ((x : Int) + 1) ((y : Int) + 1)) = false))
    (hiso : ∀ a b : Int, g.inBounds a b → ¬(a = (x : Int) ∧ b = (y : Int)) →
      (g.cells a b).type ≠ DIRT ∧ (g.cells a b).type ≠ GRASS) :
    ((g.updatePhysics bias).cells (x : Int) (y : Int)).type = DIRT := by
  have hfold : g.updatePhysics bias = g.resetUpdated := by
    unfold ParticleGrid.updatePhysics
    refine foldl_noop _ _ _ ?_
    intro p hp
    obtain ⟨i, j, hi, hj, rfl⟩ := scanOrder_mem_elim hp
    have hinij : g.inBounds (i : Int) (j : Int) := by
      unfold ParticleGrid.inBounds
      omega
    by_cases hc : ((i : Int), (j : Int)) = ((x : Int), (y : Int))
    · have h1 : (i : Int) = (x : Int) := congrArg Prod.fst hc
      have h2 : (j : Int) = (y : Int) := congrArg Prod.snd hc
      have hxeq : i = x := by omega
      have hyeq : j = y := by omega
      rcases hblock with hbot | ⟨hb, hL, hR⟩
      · omega
      · refine stepCell_dirt_blocked bias _ _ _ ?_ ?_ ?_ ?_
        · rw [h1, h2, resetUpdated_cells_type]
          exact hD
        · rw [h1, h2, isAirCell_get_resetUpdated]
          exact hb
        · rw [h1, h2, isAirCell_get_resetUpdated]
          exact hL
        · rw [h1, h2, isAirCell_get_resetUpdated]
          exact hR
    · have hiso2 := hiso (i : Int) (j : Int) hinij
        (fun hc2 => hc (Prod.ext hc2.1 hc2.2))
      refine stepCell_inert bias _ _ _ ?_ ?_ <;> rw [resetUpdated_cells_type]
      · exact hiso2.1
      · exact hiso2.2
  rw [hfold, resetUpdated_cells_type]
  exact hD

/-- The 10×10 scenario grid: row `y = 9` Stone, a single Dirt at (5, 0),
Air elsewhere. -/
def c7grid : ParticleGrid :=
  ParticleGrid.mk 10 10 (fun a b =>
    if b = 9 then ⟨STONE, false⟩
    else if a = 5 ∧ b = 0 then ⟨DIRT, false⟩
    else ⟨AIR, false⟩)

set_option maxRecDepth 40000 in
/-- C7 (amended): (i) the 10×10 scenario — the Dirt placed at (5,0) above
a fixed-solid bottom row is at (5,1) after one `step()`, rests at (5,8)
after 8 `step()`s and is still there after a 9th; (ii) in general an
isolated Dirt cell with Air directly below moves exactly one row down per
`step()`; (iii) it rests when it sits on the bottom row, or when the cell
below is solid *and both diagonal-below cells are blocked too* — with a
solid cell below but an open diagonal it slides diagonally instead of
halting (see `updatePhysics_slide_counterexample`). -/
theorem updatePhysics_settling (bias : Int → Int → Bool) :
    (((stepTimes (fun _ _ => true) c7grid 1).cells 5 0).type = AIR ∧
      ((stepTimes (fun _ _ => true) c7grid 1).cells 5 1).type = DIRT ∧
      ((stepTimes (fun _ _ => true) c7grid 8).cells 5 8).type = DIRT ∧
      ((stepTimes (fun _ _ => true) c7grid 9).cells 5 8).type = DIRT) ∧
    (∀ (g : ParticleGrid) (x y : Nat), x < g.width → y + 1 < g.height →
      (g.cells (x : Int) (y : Int)).type = DIRT →
      (g.cells (x : Int) ((y : Int) + 1)).type = AIR →
      (∀ a b : Int, g.inBounds a b → ¬(a = (x : Int) ∧ b = (y : Int)) →
        (g.cells a b).type ≠ DIRT ∧ (g.cells a b).type ≠ GRASS) →
      ((g.updatePhysics bias).cells (x : Int) (y : Int)).type = AIR ∧
        ((g.updatePhysics bias).cells (x : Int) ((y : Int) + 1)).type
          = DIRT) ∧
    (∀ (g : ParticleGrid) (x y : Nat), x < g.width → y < g.height →
      (g.cells (x : Int) (y : Int)).type = DIRT →
      (y + 1 = g.height ∨
        (isAirCell (g.get (x : Int) ((y : Int) + 1)) = false ∧
          isAirCell (g.get ((x : Int) + -1) ((y : Int) + 1)) = false ∧
          isAirCell (g.get ((x : Int) + 1) ((y : Int) + 1)) = false)) →
      (∀ a b : Int, g.inBounds a b → ¬(a = (x : Int) ∧ b = (y : Int)) →
        (g.cells a b).type ≠ DIRT ∧ (g.cells a b).type ≠ GRASS) →
      ((g.updatePhysics bias).cells (x : Int) (y : Int)).type = DIRT) :=
  ⟨⟨by decide, by decide, by decide, by decide⟩,
    fun g x y hx hy hD hA hiso => dirt_falls_one_row g bias x y hx hy hD hA
      hiso,
    fun g x y hx hy hD hblock hiso => dirt_rests g bias x y hx hy hD hblock
      hiso⟩

/-- A 3×3 grid: Dirt at (1,1) resting directly on Stone at (1,2), with
both diagonal-below cells Air. -/
def c7slideGrid : ParticleGrid :=
  ParticleGrid.mk 3 3 (fun a b =>
    if a = 1 ∧ b = 1 then ⟨DIRT, false⟩
    else if a = 1 ∧ b = 2 then ⟨STONE, false⟩
    else ⟨AIR, false⟩)

/-- C7 counterexample to the claim as stated: a Dirt cell directly above
a solid (Stone) cell does *not* halt — with an open diagonal it slides
one row down and sideways in the next `step()`. -/
theorem updatePhysics_slide_counterexample :
    ((c7slideGrid.cells 1 2).type = STONE ∧
        (c7slideGrid.cells 1 1).type = DIRT) ∧
      ((c7slideGrid.updatePhysics (fun _ _ => true)).cells 1 1).type
          = AIR ∧
        ((c7slideGrid.updatePhysics (fun _ _ => true)).cells 0 2).type
          = DIRT := by
  refine ⟨⟨by decide, by decide⟩, by decide, by decide⟩

/-- A 3×2 grid with a lone Dirt at (1,0) above Air. -/
def c7fallGrid : ParticleGrid :=
  ParticleGrid.mk 3 2
    (fun a b => if a = 1 ∧ b = 0 then ⟨DIRT, false⟩ else ⟨AIR, false⟩)

/-- Concrete witness for C7: the general falling part applied to the lone
Dirt at (1,0) of `c7fallGrid`. -/
theorem updatePhysics_settling_witness :
    ((c7fallGrid.updatePhysics (fun _ _ => true)).cells
        ((1 : Nat) : Int) ((0 : Nat) : Int)).type = AIR ∧
      ((c7fallGrid.updatePhysics (fun _ _ => true)).cells
        ((1 : Nat) : Int) (((0 : Nat) : Int) + 1)).type = DIRT :=
  (updatePhysics_settling (fun _ _ => true)).2.1 c7fallGrid 1 0 (by decide)
    (by decide) (by decide) (by decide)
    (fun a b _ hne => by
      dsimp only [c7fallGrid]
      by_cases h : a = 1 ∧ b = 0
      · exact absurd ⟨by omega, by omega⟩ hne
      · rw [if_neg h]
        exact ⟨by decide, by decide⟩)

/-! ### C8: `generateLevel` write discipline -/

/-- The rows `height … gridHeight-1` of one terrain column
(`for (let y = height; y < grid.height; y++)`). -/
def columnYs (height : Int) (gridHeight : Nat) : List Int :=
  (List.range ((gridHeight : Int) - height).toNat).map
    (fun (k : Nat) => height + k)

/-- One cell of the base terrain: Grass at the surface, Stone with
probability 0.3 once deeper than `height + 8` (consuming one random
draw), Dirt otherwise.  State is (grid, next random-tape index). -/
def baseCellWrite (tape : Nat → ℚ) (height x : Int)
    (s : ParticleGrid × Nat) (y : Int) : ParticleGrid × Nat :=
  if y = height then (s.1.set x y ⟨GRASS, false⟩, s.2)
  else if y > height + 8 then
    if tape s.2 < 3 / 10 then (s.1.set x y ⟨STONE, false⟩, s.2 + 1)
    else (s.1.set x y ⟨DIRT, false⟩, s.2 + 1)
  else (s.1.set x y ⟨DIRT, false⟩, s.2)

/-- The plant stack above a column surface
(`grid.set(x, height - 1 - i, PLANT)` for `i < plantHeight`, skipping
negative rows). -/
def plantWrites (x height : Int) (plantHeight : Nat)
    (g : ParticleGrid) : ParticleGrid :=
  (List.range plantHeight).foldl
    (fun g (i : Nat) =>
      if height - 1 - i ≥ 0 then g.set x (height - 1 - i) ⟨PLANT, false⟩
      else g)
    g

/-- One column of the base terrain pass of `generateLevel`: the
height-field from the sine variation, the column fill, then the
probabilistic plant stack (one draw for the 0.1 test, one more for the
height when it passes). -/
def baseColumn (sinq : ℚ → ℚ) (tape : Nat → ℚ) (groundLevel : Int)
    (gridHeight : Nat) (s : ParticleGrid × Nat) (x : Nat) :
    ParticleGrid × Nat :=
  let variation := ⌊sinq ((x : ℚ) * (1 / 10)) * 3⌋
  let height := groundLevel + variation
  let s := (columnYs height gridHeight).foldl
    (baseCellWrite tape height (x : Int)) s
  let r1 := tape s.2
  let s := (s.1, s.2 + 1)
  if r1 < 1 / 10 ∧ height > 0 then
    let plantHeight := (1 + ⌊tape s.2 * 3⌋).toNat
    (plantWrites (x : Int) height plantHeight s.1, s.2 + 1)
  else s

/-- The `x` range of a platform or pillar row:
`for (let x = x0; x < x0 + w && x < grid.width; x++)`. -/
def spanXs (x0 w : Int) (gridWidth : Nat) : List Int :=
  (List.range (min (x0 + w) (gridWidth : Int) - x0).toNat).map
    (fun (k : Nat) => x0 + k)

/-- `grid.get(x, platformY)?.type === ParticleType.AIR`. -/
def capIsAir (g : ParticleGrid) (x platformY : Int) : Bool :=
  match g.get x platformY with
  | some p => decide (p.type = AIR)
  | none => false

/-- One column of a floating platform: only an Air cap cell receives the
Grass cap, and then the Dirt layer below it is written (bounds-checked
but with no Air test of its own). -/
def platformColumn (g : ParticleGrid) (platformY x : Int) : ParticleGrid :=
  if capIsAir g x platformY then
    let g2 := g.set x platformY ⟨GRASS, false⟩
    if platformY + 1 < (g2.height : Int) then
      g2.set x (platformY + 1) ⟨DIRT, false⟩
    else g2
  else g

/-- One floating platform: three draws (x, y, width), then the column
loop. -/
def addPlatform (tape : Nat → ℚ) (s : ParticleGrid × Nat) :
    ParticleGrid × Nat :=
  let platformX := 10 + ⌊tape s.2 * ((s.1.width : ℚ) - 30)⌋
  let platformY := 20 + ⌊tape (s.2 + 1) * 25⌋
  let platformWidth := 5 + ⌊tape (s.2 + 2) * 8⌋
  ((spanXs platformX platformWidth s.1.width).foldl
    (fun g x => platformColumn g platformY x) s.1, s.2 + 3)

/-- The platform pass: `3 + Math.floor(Math.random() * 3)` platforms. -/
def addPlatforms (tape : Nat → ℚ) (s : ParticleGrid × Nat) :
    ParticleGrid × Nat :=
  let platformCount := 3 + ⌊tape s.2 * 3⌋
  (List.range platformCount.toNat).foldl (fun s _ => addPlatform tape s)
    (s.1, s.2 + 1)

/-- One pillar cell: written unconditionally (no Air test), guarded only
by `y >= 0` (and `set`'s own bounds check). -/
def pillarWrite (g : ParticleGrid) (x y : Int) : ParticleGrid :=
  if 0 ≤ y then g.set x y ⟨STONE, false⟩ else g

/-- One stone pillar: three draws (x, height, width), then the row/column
loops from `groundLevel - pillarHeight` up to `groundLevel - 1`. -/
def addPillar (tape : Nat → ℚ) (groundLevel : Int)
    (s : ParticleGrid × Nat) : ParticleGrid × Nat :=
  let pillarX := 15 + ⌊tape s.2 * ((s.1.width : ℚ) - 30)⌋
  let pillarHeight := 8 + ⌊tape (s.2 + 1) * 12⌋
  let pillarWidth := 2 + ⌊tape (s.2 + 2) * 2⌋
  let ys := (List.range pillarHeight.toNat).map
    (fun (k : Nat) => groundLevel - pillarHeight + k)
  let xs := spanXs pillarX pillarWidth s.1.width
  (ys.foldl (fun g y => xs.foldl (fun g x => pillarWrite g x y) g) s.1,
    s.2 + 3)

/-- The pillar pass: `2 + Math.floor(Math.random() * 2)` pillars. -/
def addPillars (tape : Nat → ℚ) (groundLevel : Int)
    (s : ParticleGrid × Nat) : ParticleGrid × Nat :=
  let pillarCount := 2 + ⌊tape s.2 * 2⌋
  (List.range pillarCount.toNat).foldl
    (fun s _ => addPillar tape groundLevel s) (s.1, s.2 + 1)

/-- `generateLevel(grid)`: base terrain with plants, floating platforms,
stone pillars.  `sinq` stands for `Math.sin`, `tape` for the successive
`Math.random()` draws. -/
def generateLevel (grid : ParticleGrid) (sinq : ℚ → ℚ)
    (tape : Nat → ℚ) : ParticleGrid :=
  let groundLevel : Int := ⌊(grid.height : ℚ) * (7 / 10)⌋
  let s := (List.range grid.width).foldl
    (baseColumn sinq tape groundLevel grid.height) (grid, 0)
  let s := addPlatforms tape s
  let s := addPillars tape groundLevel s
  s.1

/-- Invariance of dimensions and of every out-of-range coordinate:
satisfied by every write `generateLevel` performs, since all of them go
through the bounds-guarded `set`. -/
def PreservesOutside (g g' : ParticleGrid) : Prop :=
  g'.width = g.width ∧ g'.height = g.height ∧
    ∀ a b : Int, ¬ g.inBounds a b → g'.cells a b = g.cells a b

theorem inBounds_congr {g g' : ParticleGrid} (hw : g'.width = g.width)
    (hh : g'.height = g.height) (a b : Int) :
    g'.inBounds a b ↔ g.inBounds a b := by
  unfold ParticleGrid.inBounds
  rw [hw, hh]

theorem presOut_refl (g : ParticleGrid) : PreservesOutside g g :=
  ⟨rfl, rfl, fun _ _ _ => rfl⟩

theorem presOut_trans {g1 g2 g3 : ParticleGrid}
    (h1 : PreservesOutside g1 g2) (h2 : PreservesOutside g2 g3) :
    PreservesOutside g1 g3 := by
  obtain ⟨w1, h1', c1⟩ := h1
  obtain ⟨w2, h2', c2⟩ := h2
  refine ⟨w2.trans w1, h2'.trans h1', ?_⟩
  intro a b hb
  rw [c2 a b (fun hc => hb ((inBounds_congr w1 h1' a b).mp hc))]
  exact c1 a b hb

theorem PreservesOutside.set (g : ParticleGrid) (x y : Int)
    (p : Particle) : PreservesOutside g (g.set x y p) := by
  unfold ParticleGrid.set
  split_ifs with hin
  · refine ⟨rfl, rfl, ?_⟩
    intro a b hb
    dsimp only
    rw [if_neg (fun hc => hb (by rw [hc.1, hc.2]; exact hin))]
  · exact presOut_refl g

theorem set_cells_self (g : ParticleGrid) (x y : Int) (p : Particle)
    (hin : g.inBounds x y) : (g.set x y p).cells x y = p := by
  unfold ParticleGrid.set
  rw [if_pos hin]
  dsimp only
  rw [if_pos ⟨rfl, rfl⟩]

/-- State-level version of the invariance relation (grid plus tape
index). -/
def PreservesOutsideS (s t : ParticleGrid × Nat) : Prop :=
  PreservesOutside s.1 t.1

theorem presOut_platformColumn (g : ParticleGrid) (platformY x : Int) :
    PreservesOutside g (platformColumn g platformY x) := by
  unfold platformColumn
  dsimp only
  split_ifs with h1 h2
  · exact presOut_trans (PreservesOutside.set g _ _ _)
      (PreservesOutside.set _ _ _ _)
  · exact PreservesOutside.set g _ _ _
  · exact presOut_refl g

theorem presOut_pillarWrite (g : ParticleGrid) (x y : Int) :
    PreservesOutside g (pillarWrite g x y) := by
  unfold pillarWrite
  split_ifs with h1
  · exact PreservesOutside.set g _ _ _
  · exact presOut_refl g

theorem presOut_baseCellWrite (tape : Nat → ℚ) (height x : Int)
    (s : ParticleGrid × Nat) (y : Int) :
    PreservesOutsideS s (baseCellWrite tape height x s y) := by
  unfold baseCellWrite PreservesOutsideS
  split_ifs <;> exact PreservesOutside.set s.1 _ _ _

theorem presOut_plantWrites (x height : Int) (plantHeight : Nat)
    (g : ParticleGrid) : PreservesOutside g (plantWrites x height plantHeight g) := by
  unfold plantWrites
  refine foldl_rel PreservesOutside presOut_refl
    (fun _ _ _ => presOut_trans) _ ?_ _ g
  intro g' i
  dsimp only
  split_ifs
  · exact PreservesOutside.set g' _ _ _
  · exact presOut_refl g'

theorem presOut_baseColumn (sinq : ℚ → ℚ) (tape : Nat → ℚ)
    (groundLevel : Int) (gridHeight : Nat) (s : ParticleGrid × Nat)
    (x : Nat) : PreservesOutsideS s (baseColumn sinq tape groundLevel gridHeight s x) := by
  unfold baseColumn
  dsimp only
  have h1 : PreservesOutsideS s ((columnYs
      (groundLevel + ⌊sinq ((x : ℚ) * (1 / 10)) * 3⌋) gridHeight).foldl
      (baseCellWrite tape (groundLevel + ⌊sinq ((x : ℚ) * (1 / 10)) * 3⌋)
        (x : Int)) s) := by
    refine foldl_rel PreservesOutsideS
      (fun t => presOut_refl t.1)
      (fun _ _ _ => presOut_trans) _ ?_ _ s
    intro t y
    exact presOut_baseCellWrite tape _ _ t y
  split_ifs
  · exact presOut_trans h1 (presOut_plantWrites _ _ _ _)
  · exact h1

theorem presOut_addPlatform (tape : Nat → ℚ) (s : ParticleGrid × Nat) :
    PreservesOutsideS s (addPlatform tape s) := by
  unfold addPlatform PreservesOutsideS
  dsimp only
  refine foldl_rel PreservesOutside presOut_refl
    (fun _ _ _ => presOut_trans) _ ?_ _ s.1
  intro g x
  exact presOut_platformColumn g _ x

theorem presOut_addPlatforms (tape : Nat → ℚ) (s : ParticleGrid × Nat) :
    PreservesOutsideS s (addPlatforms tape s) := by
  unfold addPlatforms
  refine foldl_rel PreservesOutsideS (fun t => presOut_refl t.1)
    (fun _ _ _ => presOut_trans) _ ?_ _ (s.1, s.2 + 1)
  intro t _
  exact presOut_addPlatform tape t

theorem presOut_addPillar (tape : Nat → ℚ) (groundLevel : Int)
    (s : ParticleGrid × Nat) : PreservesOutsideS s (addPillar tape groundLevel s) := by
  unfold addPillar PreservesOutsideS
  dsimp only
  refine foldl_rel PreservesOutside presOut_refl
    (fun _ _ _ => presOut_trans) _ ?_ _ s.1
  intro g y
  refine foldl_rel PreservesOutside presOut_refl
    (fun _ _ _ => presOut_trans) _ ?_ _ g
  intro g' x
  exact presOut_pillarWrite g' x y

theorem presOut_addPillars (tape : Nat → ℚ) (groundLevel : Int)
    (s : ParticleGrid × Nat) : PreservesOutsideS s (addPillars tape groundLevel s) := by
  unfold addPillars
  refine foldl_rel PreservesOutsideS (fun t => presOut_refl t.1)
    (fun _ _ _ => presOut_trans) _ ?_ _ (s.1, s.2 + 1)
  intro t _
  exact presOut_addPillar tape groundLevel t

theorem presOut_generateLevel (grid : ParticleGrid) (sinq : ℚ → ℚ)
    (tape : Nat → ℚ) : PreservesOutside grid (generateLevel grid sinq tape) := by
  unfold generateLevel
  dsimp only
  have h1 : PreservesOutsideS (grid, 0) ((List.range grid.width).foldl
      (baseColumn sinq tape ⌊(grid.height : ℚ) * (7 / 10)⌋ grid.height)
      (grid, 0)) := by
    refine foldl_rel PreservesOutsideS (fun t => presOut_refl t.1)
      (fun _ _ _ => presOut_trans) _ ?_ _ (grid, 0)
    intro t x
    exact presOut_baseColumn sinq tape _ _ t x
  exact presOut_trans (presOut_trans h1 (presOut_addPlatforms tape _))
    (presOut_addPillars tape _ _)

/-- C8 (amended): (i) every write of `generateLevel` is clipped to grid
bounds — dimensions and all out-of-range coordinates are untouched;
(ii) a platform column writes nothing when its cap cell is not currently
Air; (iii) but when the cap is Air, the Dirt layer below it is written
regardless of what that cell currently holds (only bounds-checked); and
(iv) a pillar cell write is unconditional at any in-bounds coordinate
with `y ≥ 0` — neither checks that the target holds Air. -/
theorem generateLevel_write_discipline (grid : ParticleGrid)
    (sinq : ℚ → ℚ) (tape : Nat → ℚ) :
    ((generateLevel grid sinq tape).width = grid.width ∧
        (generateLevel grid sinq tape).height = grid.height ∧
        ∀ a b : Int, ¬ grid.inBounds a b →
          (generateLevel grid sinq tape).cells a b = grid.cells a b) ∧
      (∀ (g : ParticleGrid) (platformY x : Int),
        capIsAir g x platformY = false → platformColumn g platformY x = g) ∧
      (∀ (g : ParticleGrid) (platformY x : Int),
        capIsAir g x platformY = true →
        platformY + 1 < (g.height : Int) →
        ((platformColumn g platformY x).cells x (platformY + 1)).type
          = DIRT) ∧
      (∀ (g : ParticleGrid) (x y : Int), 0 ≤ x → x < (g.width : Int) →
        0 ≤ y → y < (g.height : Int) →
        ((pillarWrite g x y).cells x y).type = STONE) := by
  refine ⟨presOut_generateLevel grid sinq tape, ?_, ?_, ?_⟩
  · intro g platformY x h
    unfold platformColumn
    rw [if_neg (by rw [h]; exact Bool.false_ne_true)]
  · intro g platformY x h hY
    have hin : g.inBounds x platformY := by
      unfold capIsAir at h
      cases hg : g.get x platformY with
      | none => rw [hg] at h; cases h
      | some p => exact ParticleGrid.inBounds_of_get_eq_some hg
    unfold platformColumn
    rw [if_pos h]
    dsimp only
    rw [if_pos (by rw [set_height]; exact hY)]
    rw [set_cells_self]
    refine (inBounds_congr (set_width g _ _ _) (set_height g _ _ _)
      x (platformY + 1)).mpr ?_
    obtain ⟨ha, hb, hc, hd⟩ := hin
    exact ⟨ha, hb, by omega, hY⟩
  · intro g x y h1 h2 h3 h4
    unfold pillarWrite
    rw [if_pos h3]
    rw [set_cells_self g x y _ ⟨h1, h2, h3, h4⟩]

/-- `Math.sin` oracle for the concrete generation run: constantly 0
(flat terrain). -/
def c8sinq : ℚ → ℚ := fun _ => 0

/-- The random tape for the concrete generation run: the plant test of
the single column draws 1/2 (no plant), the three platform-x draws
(indices 2, 5, 8) give 10/29 (placing each platform at x = 0 on the
1-wide grid), and every other draw is 0. -/
def c8tape : Nat → ℚ := fun n =>
  if n = 0 then 1 / 2
  else if n = 2 ∨ n = 5 ∨ n = 8 then 10 / 29
  else 0

/-- The grid after `generateLevel`'s base terrain pass on an Air 1×30
grid with ground level 21: Grass at (0,21), Dirt at (0,22)…(0,29). -/
def c8baseGrid : ParticleGrid :=
  ((((((((((ParticleGrid.init 1 30).set 0 21 ⟨GRASS, false⟩).set 0 22
    ⟨DIRT, false⟩).set 0 23 ⟨DIRT, false⟩).set 0 24 ⟨DIRT, false⟩).set 0 25
    ⟨DIRT, false⟩).set 0 26 ⟨DIRT, false⟩).set 0 27 ⟨DIRT, false⟩).set 0 28
    ⟨DIRT, false⟩).set 0 29 ⟨DIRT, false⟩)

theorem c8_base_phase :
    (List.range (ParticleGrid.init 1 30).width).foldl
        (baseColumn c8sinq c8tape 21 30) (ParticleGrid.init 1 30, 0)
      = (c8baseGrid, 1) := by
  rw [show (ParticleGrid.init 1 30).width = 1 from rfl]
  rw [show List.range 1 = [0] from rfl]
  rw [List.foldl_cons, List.foldl_nil]
  unfold baseColumn
  dsimp only
  rw [show c8sinq (((0 : Nat) : ℚ) * (1 / 10)) * 3 = 0 from by
    simp [c8sinq]]
  rw [Int.floor_zero]
  rw [show (21 + 0 : Int) = 21 from by norm_num]
  rw [show columnYs 21 30 = [21, 22, 23, 24, 25, 26, 27, 28, 29] from by
    decide]
  simp only [List.foldl_cons, List.foldl_nil]
  simp only [baseCellWrite]
  norm_num [c8tape, c8baseGrid]

/-- The grid after the platform pass of the concrete run: the first
platform's single column caps (0,20) with Grass and writes its Dirt
layer at (0,21), overwriting the base-terrain Grass surface there. -/
def c8platGrid : ParticleGrid :=
  (c8baseGrid.set 0 20 ⟨GRASS, false⟩).set 0 21 ⟨DIRT, false⟩

theorem c8_platA : addPlatform c8tape (c8baseGrid, 2) = (c8platGrid, 5) := by
  unfold addPlatform
  dsimp only
  rw [show c8baseGrid.width = 1 from rfl]
  rw [show c8tape 2 = 10 / 29 from rfl]
  rw [show c8tape (2 + 1) = 0 from rfl]
  rw [show c8tape (2 + 1 + 1) = 0 from rfl]
  rw [show (10 + ⌊(10 / 29 : ℚ) * (((1 : ℕ) : ℚ) - 30)⌋ : ℤ) = 0 from by
    push_cast
    norm_num]
  rw [show (20 + ⌊(0 : ℚ) * 25⌋ : ℤ) = 20 from by norm_num]
  rw [show (5 + ⌊(0 : ℚ) * 8⌋ : ℤ) = 5 from by norm_num]
  rw [show spanXs 0 5 1 = [0] from by decide]
  simp only [List.foldl_cons, List.foldl_nil]
  unfold platformColumn
  rw [show capIsAir c8baseGrid 0 20 = true from rfl]
  rw [if_pos rfl]
  dsimp only
  rw [show (c8baseGrid.set 0 20 ⟨GRASS, false⟩).height = 30 from rfl]
  rw [if_pos (by norm_num)]
  norm_num [c8platGrid]

theorem c8_platB : addPlatform c8tape (c8platGrid, 5) = (c8platGrid, 8) := by
  unfold addPlatform
  dsimp only
  rw [show c8platGrid.width = 1 from rfl]
  rw [show c8tape 5 = 10 / 29 from rfl]
  rw [show c8tape (5 + 1) = 0 from rfl]
  rw [show c8tape (5 + 1 + 1) = 0 from rfl]
  rw [show (10 + ⌊(10 / 29 : ℚ) * (((1 : ℕ) : ℚ) - 30)⌋ : ℤ) = 0 from by
    push_cast
    norm_num]
  rw [show (20 + ⌊(0 : ℚ) * 25⌋ : ℤ) = 20 from by norm_num]
  rw [show (5 + ⌊(0 : ℚ) * 8⌋ : ℤ) = 5 from by norm_num]
  rw [show spanXs 0 5 1 = [0] from by decide]
  simp only [List.foldl_cons, List.foldl_nil]
  unfold platformColumn
  rw [show capIsAir c8platGrid 0 20 = false from rfl]
  rw [if_neg (by norm_num)]

theorem c8_platC : addPlatform c8tape (c8platGrid, 8) = (c8platGrid, 11) := by
  unfold addPlatform
  dsimp only
  rw [show c8platGrid.width = 1 from rfl]
  rw [show c8tape 8 = 10 / 29 from rfl]
  rw [show c8tape (8 + 1) = 0 from rfl]
  rw [show c8tape (8 + 1 + 1) = 0 from rfl]
  rw [show (10 + ⌊(10 / 29 : ℚ) * (((1 : ℕ) : ℚ) - 30)⌋ : ℤ) = 0 from by
    push_cast
    norm_num]
  rw [show (20 + ⌊(0 : ℚ) * 25⌋ : ℤ) = 20 from by norm_num]
  rw [show (5 + ⌊(0 : ℚ) * 8⌋ : ℤ) = 5 from by norm_num]
  rw [show spanXs 0 5 1 = [0] from by decide]
  simp only [List.foldl_cons, List.foldl_nil]
  unfold platformColumn
  rw [show capIsAir c8platGrid 0 20 = false from rfl]
  rw [if_neg (by norm_num)]

theorem c8_platform_phase :
    addPlatforms c8tape (c8baseGrid, 1) = (c8platGrid, 11) := by
  unfold addPlatforms
  dsimp only
  rw [show c8tape 1 = 0 from rfl]
  rw [show ((3 : ℤ) + ⌊(0 : ℚ) * 3⌋).toNat = 3 from by
    norm_num
    decide]
  rw [show List.range 3 = [0, 1, 2] from rfl]
  simp only [List.foldl_cons, List.foldl_nil]
  rw [show (1 + 1 : ℕ) = 2 from rfl]
  rw [c8_platA, c8_platB, c8_platC]

theorem c8_pillarA :
    addPillar c8tape 21 (c8platGrid, 12) = (c8platGrid, 15) := by
  unfold addPillar
  dsimp only
  rw [show c8platGrid.width = 1 from rfl]
  rw [show c8tape 12 = 0 from rfl]
  rw [show c8tape (12 + 1) = 0 from rfl]
  rw [show c8tape (12 + 1 + 1) = 0 from rfl]
  rw [show (15 + ⌊(0 : ℚ) * (((1 : ℕ) : ℚ) - 30)⌋ : ℤ) = 15 from by
    push_cast
    norm_num]
  rw [show (8 + ⌊(0 : ℚ) * 12⌋ : ℤ) = 8 from by norm_num]
  rw [show (2 + ⌊(0 : ℚ) * 2⌋ : ℤ) = 2 from by norm_num]
  rw [show spanXs 15 2 1 = ([] : List Int) from by decide]
  simp only [List.foldl_nil]
  rw [foldl_noop _ _ _ (fun p _ => rfl)]

theorem c8_pillarB :
    addPillar c8tape 21 (c8platGrid, 15) = (c8platGrid, 18) := by
  unfold addPillar
  dsimp only
  rw [show c8platGrid.width = 1 from rfl]
  rw [show c8tape 15 = 0 from rfl]
  rw [show c8tape (15 + 1) = 0 from rfl]
  rw [show c8tape (15 + 1 + 1) = 0 from rfl]
  rw [show (15 + ⌊(0 : ℚ) * (((1 : ℕ) : ℚ) - 30)⌋ : ℤ) = 15 from by
    push_cast
    norm_num]
  rw [show (8 + ⌊(0 : ℚ) * 12⌋ : ℤ) = 8 from by norm_num]
  rw [show (2 + ⌊(0 : ℚ) * 2⌋ : ℤ) = 2 from by norm_num]
  rw [show spanXs 15 2 1 = ([] : List Int) from by decide]
  simp only [List.foldl_nil]
  rw [foldl_noop _ _ _ (fun p _ => rfl)]

theorem c8_pillar_phase :
    addPillars c8tape 21 (c8platGrid, 11) = (c8platGrid, 18) := by
  unfold addPillars
  dsimp only
  rw [show c8tape 11 = 0 from rfl]
  rw [show ((2 : ℤ) + ⌊(0 : ℚ) * 2⌋).toNat = 2 from by
    norm_num
    decide]
  rw [show List.range 2 = [0, 1] from rfl]
  simp only [List.foldl_cons, List.foldl_nil]
  rw [show (11 + 1 : ℕ) = 12 from rfl]
  rw [c8_pillarA, c8_pillarB]

/-- C8 counterexample: on a 1×30 Air grid with a flat sine and the tape
`c8tape`, the base terrain pass puts Grass at (0,21) — the ground
surface — yet the finished level has Dirt there: the first platform
(placed at x = 0, y = 20 by the tape) writes its Dirt layer at (0,21)
without any Air test, overwriting the non-Air surface cell.  This
refutes the claim that platform cells are written only into cells that
are currently Air: only the Grass cap is so guarded. -/
theorem generateLevel_claimC8_counterexample :
    (((List.range (ParticleGrid.init 1 30).width).foldl
          (baseColumn c8sinq c8tape 21 30)
          (ParticleGrid.init 1 30, 0)).1.cells 0 21).type = GRASS ∧
      ((generateLevel (ParticleGrid.init 1 30) c8sinq c8tape).cells
          0 21).type = DIRT := by
  constructor
  · rw [c8_base_phase]
    rfl
  · unfold generateLevel
    dsimp only
    rw [show (ParticleGrid.init 1 30).height = 30 from rfl]
    rw [show ⌊((30 : ℕ) : ℚ) * (7 / 10)⌋ = 21 from by
      push_cast
      norm_num]
    rw [c8_base_phase, c8_platform_phase, c8_pillar_phase]
    rfl

/-- Concrete instances of the write-discipline theorem: an out-of-range
cell of a generated 2×2 level is untouched; a platform column with a
non-Air cap is a no-op; a platform column with an Air cap writes Dirt
below the cap; a pillar cell in range becomes Stone. -/
theorem generateLevel_write_discipline_witness :
    (generateLevel (ParticleGrid.init 2 2) (fun _ => 0)
          (fun _ => 0)).cells (-1) 0
        = (ParticleGrid.init 2 2).cells (-1) 0 ∧
      platformColumn (ParticleGrid.init 2 2) 5 0 = ParticleGrid.init 2 2 ∧
      ((platformColumn (ParticleGrid.init 2 2) 0 0).cells
          0 (0 + 1)).type = DIRT ∧
      ((pillarWrite (ParticleGrid.init 2 2) 1 1).cells 1 1).type
        = STONE := by
  refine ⟨?_, ?_, ?_, ?_⟩
  · exact (generateLevel_write_discipline (ParticleGrid.init 2 2)
      (fun _ => 0) (fun _ => 0)).1.2.2 (-1) 0 (by decide)
  · exact (generateLevel_write_discipline (ParticleGrid.init 2 2)
      (fun _ => 0) (fun _ => 0)).2.1 (ParticleGrid.init 2 2) 5 0 rfl
  · exact (generateLevel_write_discipline (ParticleGrid.init 2 2)
      (fun _ => 0) (fun _ => 0)).2.2.1 (ParticleGrid.init 2 2) 0 0 rfl
      (by decide)
  · exact (generateLevel_write_discipline (ParticleGrid.init 2 2)
      (fun _ => 0) (fun _ => 0)).2.2.2 (ParticleGrid.init 2 2) 1 1
      (by decide) (by decide) (by decide) (by decide)
